import Mathlib

/-!
Shallow embedding of the notification-dispatch core of the `nitifier`
repository (smsTemplates.js, emailTemplates.js, validators.js,
smsService.js, emailService.js) and proofs about the claims of the spec.

JavaScript values are modelled as follows: a possibly-absent string field
(`undefined`/`null` or a string) is `Option String`; a JS object that may be
`null` is `Option <Struct>`; a thrown exception is the `Except.error` branch
of an explicit exception channel; external transports (axios, sgMail) are
oracles passed in as functions.
-/

namespace Notifier

/-! ## JavaScript string primitives -/

/-- The whitespace class of the JS regexes used by the source (`\s`),
restricted to its ASCII part. -/
def jsIsSpace (c : Char) : Bool :=
  c = ' ' || c = '\t' || c = '\n' || c = '\r' || c = '\x0b' || c = '\x0c'

/-- JS `s.toLowerCase()` (the source only relies on ASCII case mapping). -/
def jsLower (s : String) : String :=
  ⟨s.data.map Char.toLower⟩

/-- JS `s.trim()`: drop whitespace from both ends. -/
def jsTrim (s : String) : String :=
  ⟨(s.data.dropWhile jsIsSpace).reverse.dropWhile jsIsSpace |>.reverse⟩

/-- The event-key normalization `s.toLowerCase().replace(/[-_\s]/g, '_')`
used for statuses and trip notification types. -/
def normKey (s : String) : String :=
  ⟨(jsLower s).data.map (fun c => if c = '-' || c = '_' || jsIsSpace c then '_' else c)⟩

/-- `x?.toLowerCase().replace(/[-_\s]/g, '_')` on a nullable string. -/
def normKeyOpt (s : Option String) : Option String :=
  s.map normKey

/-- JS truthiness of a string-or-absent value (`undefined`, `null` and `""`
are falsy). -/
def truthy : Option String → Bool
  | none => false
  | some s => !(s = "")

/-- JS `v || d` for a string-valued `v` with default `d`. -/
def orDefault (v : Option String) (d : String) : String :=
  match v with
  | none => d
  | some s => if s = "" then d else s

/-- JS string coercion of a possibly-absent value as it appears inside a
template literal: `undefined` prints as "undefined". -/
def jsStr : Option String → String
  | none => "undefined"
  | some s => s

/-- Core of JS `s.replace(new RegExp(pat, 'g'), rep)` for a literal,
nonempty pattern: replace every non-overlapping occurrence, scanning left
to right.  The first argument counts characters of a recognized match that
remain to be consumed, so the recursion is structural on the scanned list:
on a match at `c :: rest`, the replacement is emitted, `c` is consumed, and
the remaining `pat.length - 1` matched characters are skipped. -/
def replAllGo (pat rep : List Char) : Nat → List Char → List Char
  | _, [] => []
  | 0, c :: rest =>
    if pat.isPrefixOf (c :: rest) then
      rep ++ replAllGo pat rep (pat.length - 1) rest
    else
      c :: replAllGo pat rep 0 rest
  | k + 1, _ :: rest => replAllGo pat rep k rest

/-- JS global replace with an empty pattern inserts the replacement at every
position, including the end. -/
def emptyPatRepl (rep : List Char) : List Char → List Char
  | [] => rep
  | c :: rest => rep ++ c :: emptyPatRepl rep rest

/-- JS `s.replace(new RegExp(pat, 'g'), rep)` for a pattern with no regex
metacharacters (the placeholders `{name}` … contain none; `{` / `}` not
forming a quantifier are literal in JS regexes) and a replacement used
literally. -/
def replAllList (s pat rep : List Char) : List Char :=
  match pat with
  | [] => emptyPatRepl rep s
  | _ :: _ => replAllGo pat rep 0 s

/-- String-level wrapper for the global literal replace. -/
def jsReplaceAll (s pat rep : String) : String :=
  ⟨replAllList s.data pat.data rep.data⟩

/-- JS `s.replace(pat, rep)` with a STRING pattern: replaces only the FIRST
occurrence (replacement used literally). -/
def replFirstList (pat rep : List Char) : List Char → List Char
  | [] => if pat = [] then rep else []
  | c :: rest =>
    if pat = [] then rep ++ c :: rest
    else if pat.isPrefixOf (c :: rest) then rep ++ rest.drop (pat.length - 1)
    else c :: replFirstList pat rep rest

/-- String-level wrapper for the first-occurrence replace. -/
def jsReplaceFirst (s pat rep : String) : String :=
  ⟨replFirstList pat.data rep.data s.data⟩

/-- Split a list at every element satisfying `p`; separators are dropped and
empty pieces are kept (mirrors JS `String.prototype.split`). -/
def splitAtPred (p : Char → Bool) : List Char → List (List Char)
  | [] => [[]]
  | c :: rest =>
    match splitAtPred p rest with
    | [] => if p c then [[], []] else [[c]]
    | h :: t => if p c then [] :: h :: t else (c :: h) :: t

/-! ## Prototype-chain-aware property lookup

The template stores are plain object literals, so a bracket lookup that
misses every own key continues through the prototype chain to
`Object.prototype`.  Both stores lower-case the looked-up key first, and
the only `Object.prototype` member names without upper-case letters are
`constructor` (yielding the truthy `Object` constructor) and `__proto__`
(the accessor, yielding the truthy `Object.prototype` when read on a plain
object), so exactly these two names can leak inherited values out of the
stores. -/

/-- The result of a JS property read on one of the template-store object
literals: an own data property, the inherited `constructor` member (the
`Object` constructor, truthy), the inherited `__proto__` accessor result
(`Object.prototype`, truthy), or `undefined`. -/
inductive JsProp (α : Type) where
  | own (a : α)
  | objectCtor
  | objectProto
  | undefinedProp
deriving DecidableEq, Repr

/-- The result of a property read on one of the host objects the prototype
chain can produce: a truthy member, a falsy value, a thrown TypeError (the
poisoned `caller`/`arguments` accessors of `Function.prototype`), or
`undefined`. -/
inductive HostProp where
  | truthy (name : String)
  | falsy
  | throws
  | undefinedProp
deriving DecidableEq, Repr

/-- Property read on the `Object` constructor for keys without upper-case
letters (the only keys the lower-casing lookups can produce): its
all-lower-case own properties (`length` is 1, hence truthy) and statics,
the members inherited from `Function.prototype` (`apply`, `bind`, `call`,
`constructor`, the `__proto__` accessor), and the poisoned
`caller`/`arguments` accessors, which throw. -/
def objectCtorGet (key : String) : HostProp :=
  if key = "assign" || key = "create" || key = "entries" || key = "freeze" ||
      key = "is" || key = "keys" || key = "seal" || key = "values" ||
      key = "name" || key = "prototype" || key = "length" ||
      key = "apply" || key = "bind" || key = "call" || key = "constructor" ||
      key = "__proto__" then .truthy key
  else if key = "caller" || key = "arguments" then .throws
  else .undefinedProp

/-- Property read on `Object.prototype` for keys without upper-case
letters: `constructor` is the truthy `Object` constructor, the `__proto__`
accessor yields `null` (falsy), and everything else is `undefined` (the
chain ends there). -/
def objectProtoGet (key : String) : HostProp :=
  if key = "constructor" then .truthy key
  else if key = "__proto__" then .falsy
  else .undefinedProp

/-- What `getTemplate` hands back to its caller: a genuine template, a
truthy non-template host value leaked through the prototype chain (tagged
with the property name whose lookup produced it), `null`, or a TypeError
thrown while evaluating the lookup. -/
inductive TemplateResult (α : Type) where
  | found (t : α)
  | hostValue (key : String)
  | nullResult
  | thrown
deriving DecidableEq, Repr

/-- Whether a lookup produced a genuine template. -/
def TemplateResult.isFound {α : Type} : TemplateResult α → Bool
  | .found _ => true
  | _ => false

/-- The message of the TypeError raised when a caller reads `.replace` off
the `undefined` `message`/`subject` field of a non-template lookup result. -/
def readReplaceOfUndefinedMsg : String :=
  "Cannot read properties of undefined (reading \x27replace\x27)"

/-- The message of the TypeError raised by the poisoned
`caller`/`arguments` accessors of `Function.prototype`. -/
def restrictedFunctionPropsMsg : String :=
  "\x27caller\x27, \x27callee\x27, and \x27arguments\x27 properties may not be accessed on strict mode functions or the arguments objects for calls to them"

/-! ## SMS template store (src/unnamed/part_000, `smsTemplates.js`) -/

namespace SmsTemplates

structure SmsTemplate where
  message : String
deriving DecidableEq, Repr

structure SmsLangRow where
  english : SmsTemplate
  french : SmsTemplate
  kinyarwanda : SmsTemplate
deriving DecidableEq, Repr

def smsReceivedEnglish : SmsTemplate :=
  { message := "Hi {name}, your issue {ticketId} has been received. We\x27ll review it soon. Track: https://ces-frontend-zeta.vercel.app/followup?id={ticketId}" }

def smsReceivedFrench : SmsTemplate :=
  { message := "Bonjour {name}, votre problème {ticketId} a été reçu. Nous l\x27examinerons bientôt. Suivi: https://ces-frontend-zeta.vercel.app/followup?id={ticketId}" }

def smsReceivedKinyarwanda : SmsTemplate :=
  { message := "Mwaramutse {name}, ikibazo {ticketId} cyakiriwe. Tuzacyasuzuma vuba. Kurikirana: https://ces-frontend-zeta.vercel.app/followup?id={ticketId}" }

def smsReceivedRow : SmsLangRow :=
  { english := smsReceivedEnglish, french := smsReceivedFrench, kinyarwanda := smsReceivedKinyarwanda }

def smsResolvedEnglish : SmsTemplate :=
  { message := "Hi {name}, your issue {ticketId} has been resolved! View details: https://ces-frontend-zeta.vercel.app/followup?id={ticketId}" }

def smsResolvedFrench : SmsTemplate :=
  { message := "Bonjour {name}, votre problème {ticketId} a été résolu! Détails: https://ces-frontend-zeta.vercel.app/followup?id={ticketId}" }

def smsResolvedKinyarwanda : SmsTemplate :=
  { message := "Mwaramutse {name}, ikibazo {ticketId} cyakemuwe! Ibisobanura: https://ces-frontend-zeta.vercel.app/followup?id={ticketId}" }

def smsResolvedRow : SmsLangRow :=
  { english := smsResolvedEnglish, french := smsResolvedFrench, kinyarwanda := smsResolvedKinyarwanda }

def smsEscalatedEnglish : SmsTemplate :=
  { message := "Hi {name}, your issue {ticketId} has been escalated to {escalatedTo}. Track: https://ces-frontend-zeta.vercel.app/followup?id={ticketId}" }

def smsEscalatedFrench : SmsTemplate :=
  { message := "Bonjour {name}, votre problème {ticketId} a été escaladé à {escalatedTo}. Suivi: https://ces-frontend-zeta.vercel.app/followup?id={ticketId}" }

def smsEscalatedKinyarwanda : SmsTemplate :=
  { message := "Mwaramutse {name}, ikibazo {ticketId} cyoherejwe kuri {escalatedTo}. Kurikirana: https://ces-frontend-zeta.vercel.app/followup?id={ticketId}" }

def smsEscalatedRow : SmsLangRow :=
  { english := smsEscalatedEnglish, french := smsEscalatedFrench, kinyarwanda := smsEscalatedKinyarwanda }

def smsAssignedEnglish : SmsTemplate :=
  { message := "Hi {name}, your issue {ticketId} has been assigned to {assignedTo}. Track: https://ces-frontend-zeta.vercel.app/followup?id={ticketId}" }

def smsAssignedFrench : SmsTemplate :=
  { message := "Bonjour {name}, votre problème {ticketId} a été assigné à {assignedTo}. Suivi: https://ces-frontend-zeta.vercel.app/followup?id={ticketId}" }

def smsAssignedKinyarwanda : SmsTemplate :=
  { message := "Mwaramutse {name}, ikibazo {ticketId} cyahawe {assignedTo}. Kurikirana: https://ces-frontend-zeta.vercel.app/followup?id={ticketId}" }

def smsAssignedRow : SmsLangRow :=
  { english := smsAssignedEnglish, french := smsAssignedFrench, kinyarwanda := smsAssignedKinyarwanda }

def smsClosedEnglish : SmsTemplate :=
  { message := "Hi {name}, your issue {ticketId} has been closed. If you need help, contact us. Details: https://ces-frontend-zeta.vercel.app/followup?id={ticketId}" }

def smsClosedFrench : SmsTemplate :=
  { message := "Bonjour {name}, votre problème {ticketId} a été fermé. Si vous avez besoin d\x27aide, contactez-nous. Détails: https://ces-frontend-zeta.vercel.app/followup?id={ticketId}" }

def smsClosedKinyarwanda : SmsTemplate :=
  { message := "Mwaramutse {name}, ikibazo {ticketId} cyafunguwe. Niba ukeneye ubufasha, tubabarire. Ibisobanura: https://ces-frontend-zeta.vercel.app/followup?id={ticketId}" }

def smsClosedRow : SmsLangRow :=
  { english := smsClosedEnglish, french := smsClosedFrench, kinyarwanda := smsClosedKinyarwanda }

def smsInProgressEnglish : SmsTemplate :=
  { message := "Hi {name}, we\x27re working on your issue {ticketId}. We\x27ll update you soon. Track: https://ces-frontend-zeta.vercel.app/followup?id={ticketId}" }

def smsInProgressFrench : SmsTemplate :=
  { message := "Bonjour {name}, nous travaillons sur votre problème {ticketId}. Nous vous tiendrons informé. Suivi: https://ces-frontend-zeta.vercel.app/followup?id={ticketId}" }

def smsInProgressKinyarwanda : SmsTemplate :=
  { message := "Mwaramutse {name}, dukora ku kibazo {ticketId}. Tuzagufasha amakuru vuba. Kurikirana: https://ces-frontend-zeta.vercel.app/followup?id={ticketId}" }

def smsInProgressRow : SmsLangRow :=
  { english := smsInProgressEnglish, french := smsInProgressFrench, kinyarwanda := smsInProgressKinyarwanda }

/-- The object literal `templates` of smsTemplates.js, as a JS property
lookup on it: own keys (in insertion order: received, resolved, escalated,
assigned, closed, in_progress), then the prototype chain (`constructor`
and `__proto__` are the only inherited member names reachable after
lower-casing), then `undefined`. -/
def templatesTable (key : String) : JsProp SmsLangRow :=
  if key = "received" then .own smsReceivedRow
  else if key = "resolved" then .own smsResolvedRow
  else if key = "escalated" then .own smsEscalatedRow
  else if key = "assigned" then .own smsAssignedRow
  else if key = "closed" then .own smsClosedRow
  else if key = "in_progress" then .own smsInProgressRow
  else if key = "constructor" then .objectCtor
  else if key = "__proto__" then .objectProto
  else .undefinedProp

/-- JS property access `row[language]` on a language row: own keys, then
the prototype chain, then `undefined`. -/
def SmsLangRow.get (r : SmsLangRow) (lang : String) : JsProp SmsTemplate :=
  if lang = "english" then .own r.english
  else if lang = "french" then .own r.french
  else if lang = "kinyarwanda" then .own r.kinyarwanda
  else if lang = "constructor" then .objectCtor
  else if lang = "__proto__" then .objectProto
  else .undefinedProp

/-- `getAvailableStatuses()` of smsTemplates.js. -/
def getAvailableStatuses : List String :=
  ["received", "resolved", "escalated", "assigned", "closed", "in_progress"]

/-- `getAvailableLanguages()` of smsTemplates.js. -/
def getAvailableLanguages : List String :=
  ["english", "french", "kinyarwanda"]

/-- `getTemplate(status, language)` of smsTemplates.js:
`if (templates[st] && templates[st][lang]) return templates[st][lang];`
then the English fallback `if (templates[st] && templates[st].english)`,
else null.  When the status lookup lands on an own row, an inherited
`constructor`/`__proto__` language is truthy and is returned as is (a
non-template host value); a genuine miss is `undefined` and falls back to
the own, truthy `english` entry.  When the status itself reaches an
inherited host object, the language is read off that host
(`objectCtorGet` / `objectProtoGet`) — a truthy member is returned, the
poisoned accessors throw, and otherwise the fallback reads `english` off
the same host, which is `undefined` on both, so the result is null. -/
def getTemplate (status language : Option String) : TemplateResult SmsTemplate :=
  let normalizedStatus := normKeyOpt status
  let normalizedLanguage := language.map jsLower
  match normalizedStatus with
  | none => .nullResult
  | some st =>
    match templatesTable st with
    | .undefinedProp => .nullResult
    | .own row =>
      match (match normalizedLanguage with
             | none => JsProp.undefinedProp
             | some l => row.get l) with
      | .own t => .found t
      | .objectCtor => .hostValue ("constructor")
      | .objectProto => .hostValue ("__proto__")
      | .undefinedProp => .found row.english
    | .objectCtor =>
      match (match normalizedLanguage with
             | none => HostProp.undefinedProp
             | some l => objectCtorGet l) with
      | .truthy n => .hostValue n
      | .falsy => .nullResult
      | .throws => .thrown
      | .undefinedProp => .nullResult
    | .objectProto =>
      match (match normalizedLanguage with
             | none => HostProp.undefinedProp
             | some l => objectProtoGet l) with
      | .truthy n => .hostValue n
      | .falsy => .nullResult
      | .throws => .thrown
      | .undefinedProp => .nullResult

/-- `hasTemplate(status)` of smsTemplates.js: `!!templates[st]`, which is
true for the six own keys and also for the truthy inherited
`constructor`/`__proto__` members. -/
def hasTemplate (status : Option String) : Bool :=
  match normKeyOpt status with
  | none => false
  | some st =>
    match templatesTable st with
    | .undefinedProp => false
    | _ => true

end SmsTemplates

/-! ## Email template store (src/emailTemplates.js) -/

namespace EmailTemplates

structure EmailTemplate where
  subject : String
  body : String
  htmlBody : Option String
deriving DecidableEq, Repr

structure EmailLangRow where
  english : EmailTemplate
  french : EmailTemplate
  kinyarwanda : EmailTemplate
deriving DecidableEq, Repr

def emailReceivedEnglish : EmailTemplate :=
  { subject := "Issue {ticketId} Received - CES Support",
    body := "Hello {name},\n\nWe have successfully received your issue and created a support ticket for you.\n\nIssue Details:\n- Ticket ID: {ticketId}\n- Issue Title: {issueTitle}\n- Status: Received\n- Date: {currentDate}\n\nOur team will review your issue and get back to you as soon as possible. You can track the status of your issue using the ticket ID provided above.\n\nClick here to view issue details: https://ces-frontend-zeta.vercel.app/followup?id={ticketId}\n\nThank you for contacting us.\n\nBest regards,\nCES Support Team",
    htmlBody := some ("\n                <div style=\"font-family: Arial, sans-serif; max-width: 600px; margin: 0 auto;\">\n                    <h2 style=\"color: #2c3e50;\">Issue Received</h2>\n                    <p>Hello <strong>{name}</strong>,</p>\n                    \n                    <p>We have successfully received your issue and created a support ticket for you.</p>\n                    \n                    <div style=\"background-color: #f8f9fa; padding: 20px; border-radius: 8px; margin: 20px 0;\">\n                        <h3 style=\"color: #495057; margin-top: 0;\">Issue Details:</h3>\n                        <ul style=\"list-style: none; padding: 0;\">\n                            <li><strong>Ticket ID:</strong> {ticketId}</li>\n                            <li><strong>Issue Title:</strong> {issueTitle}</li>\n                            <li><strong>Status:</strong> <span style=\"color: #28a745;\">Received</span></li>\n                            <li><strong>Date:</strong> {currentDate}</li>\n                        </ul>\n                    </div>\n                    \n                    <p>Our team will review your issue and get back to you as soon as possible. You can track the status of your issue using the ticket ID provided above.</p>\n                    \n                    <div style=\"text-align: center; margin: 30px 0;\">\n                        <a href=\"https://ces-frontend-zeta.vercel.app/followup?id={ticketId}\" \n                           style=\"background-color: #007bff; color: white; padding: 12px 24px; text-decoration: none; border-radius: 5px; display: inline-block; font-weight: bold;\">\n                            Click here to view issue details\n                        </a>\n                    </div>\n                    \n                    <p>Thank you for contacting us.</p>\n                    \n                    <div style=\"margin-top: 30px; padding-top: 20px; border-top: 1px solid #dee2e6;\">\n                        <p style=\"color: #6c757d; margin: 0;\">Best regards,<br>CES Support Team</p>\n                    </div>\n                </div>\n            ") }

def emailReceivedFrench : EmailTemplate :=
  { subject := "Problème {ticketId} Reçu - Support CES",
    body := "Bonjour {name},\n\nNous avons reçu avec succès votre problème et créé un ticket de support pour vous.\n\nDétails du problème:\n- ID du ticket: {ticketId}\n- Titre du problème: {issueTitle}\n- Statut: Reçu\n- Date: {currentDate}\n\nNotre équipe examinera votre problème et vous contactera dès que possible. Vous pouvez suivre le statut de votre problème en utilisant l\x27ID de ticket fourni ci-dessus.\n\nCliquez ici pour voir les détails du problème: https://ces-frontend-zeta.vercel.app/followup?id={ticketId}\n\nMerci de nous avoir contactés.\n\nCordialement,\nÉquipe de Support CES",
    htmlBody := none }

def emailReceivedKinyarwanda : EmailTemplate :=
  { subject := "Ikibazo {ticketId} Cyakiriwe - Ubufasha bwa CES",
    body := "Mwaramutse {name},\n\nTwakize neza ikibazo cyawe maze tushyiraho tiketi y\x27ubufasha.\n\nIbisobanura by\x27ikibazo:\n- ID ya tiketi: {ticketId}\n- Umutwe w\x27ikibazo: {issueTitle}\n- Imimerere: Cyakiriwe\n- Itariki: {currentDate}\n\nIkipe yacu izasuzuma ikibazo cyawe maze ikagusubize vuba bishoboka. Urashobora gukurikirana imimerere y\x27ikibazo cyawe ukoresheje ID ya tiketi yatanzwe hejuru.\n\nKanda hano kugira ngo urebe ibisobanura by\x27ikibazo: https://ces-frontend-zeta.vercel.app/followup?id={ticketId}\n\nUrakoze kutwandikira.\n\nIcyubahiro,\nIkipe y\x27Ubufasha ya CES",
    htmlBody := none }

def emailReceivedRow : EmailLangRow :=
  { english := emailReceivedEnglish, french := emailReceivedFrench, kinyarwanda := emailReceivedKinyarwanda }

def emailResolvedEnglish : EmailTemplate :=
  { subject := "Issue {ticketId} Resolved - CES Support",
    body := "Hello {name},\n\nGreat news! Your issue has been successfully resolved.\n\nIssue Details:\n- Ticket ID: {ticketId}\n- Issue Title: {issueTitle}\n- Status: Resolved\n- Resolution Date: {currentDate}\n\n{responseMessage}\n\nYour issue is now closed. If you have any other questions or need further assistance, please don\x27t hesitate to contact us.\n\nClick here to view issue details: https://ces-frontend-zeta.vercel.app/followup?id={ticketId}\n\nThank you for using our services.\n\nBest regards,\nCES Support Team",
    htmlBody := none }

def emailResolvedFrench : EmailTemplate :=
  { subject := "Problème {ticketId} Résolu - Support CES",
    body := "Bonjour {name},\n\nBonne nouvelle! Votre problème a été résolu avec succès.\n\nDétails du problème:\n- ID du ticket: {ticketId}\n- Titre du problème: {issueTitle}\n- Statut: Résolu\n- Date de résolution: {currentDate}\n\n{responseMessage}\n\nVotre problème est maintenant fermé. Si vous avez d\x27autres questions ou besoin d\x27assistance supplémentaire, n\x27hésitez pas à nous contacter.\n\nCliquez ici pour voir les détails du problème: https://ces-frontend-zeta.vercel.app/followup?id={ticketId}\n\nMerci d\x27utiliser nos services.\n\nCordialement,\nÉquipe de Support CES",
    htmlBody := none }

def emailResolvedKinyarwanda : EmailTemplate :=
  { subject := "Ikibazo {ticketId} Cyakemuwe - Ubufasha bwa CES",
    body := "Mwaramutse {name},\n\nAmakuru meza! Ikibazo cyawe cyakemuwe neza.\n\nIbisobanura by\x27ikibazo:\n- ID ya tiketi: {ticketId}\n- Umutwe w\x27ikibazo: {issueTitle}\n- Imimerere: Cyakemuwe\n- Itariki cyakemuweho: {currentDate}\n\n{responseMessage}\n\nIkibazo cyawe gisozwa. Niba ufite ibindi bibazo cyangwa ukeneye ubundi bufasha, ntuzuhe kutwandikira.\n\nKanda hano kugira ngo urebe ibisobanura by\x27ikibazo: https://ces-frontend-zeta.vercel.app/followup?id={ticketId}\n\nUrakoze gukoresha serivise zacu.\n\nIcyubahiro,\nIkipe y\x27Ubufasha ya CES",
    htmlBody := none }

def emailResolvedRow : EmailLangRow :=
  { english := emailResolvedEnglish, french := emailResolvedFrench, kinyarwanda := emailResolvedKinyarwanda }

def emailEscalatedEnglish : EmailTemplate :=
  { subject := "Issue {ticketId} Escalated to {escalatedTo} - CES Support",
    body := "Hello {name},\n\nYour issue has been escalated to a higher level for faster resolution.\n\nIssue Details:\n- Ticket ID: {ticketId}\n- Issue Title: {issueTitle}\n- Status: Escalated\n- Escalated to: {escalatedTo}\n- Escalation Date: {currentDate}\n\nYour issue has been assigned to {escalatedTo} who specializes in handling complex cases like yours. You can expect a response soon.\n\nWe appreciate your patience as we work to resolve your issue.\n\nClick here to view issue details: https://ces-frontend-zeta.vercel.app/followup?id={ticketId}\n\nBest regards,\nCES Support Team",
    htmlBody := none }

def emailEscalatedFrench : EmailTemplate :=
  { subject := "Problème {ticketId} Escaladé à {escalatedTo} - Support CES",
    body := "Bonjour {name},\n\nVotre problème a été escaladé à un niveau supérieur pour une résolution plus rapide.\n\nDétails du problème:\n- ID du ticket: {ticketId}\n- Titre du problème: {issueTitle}\n- Statut: Escaladé\n- Escaladé à: {escalatedTo}\n- Date d\x27escalade: {currentDate}\n\nVotre problème a été assigné à {escalatedTo} qui se spécialise dans la gestion de cas complexes comme le vôtre. Vous pouvez vous attendre à une réponse bientôt.\n\nNous apprécions votre patience pendant que nous travaillons à résoudre votre problème.\n\nCliquez ici pour voir les détails du problème: https://ces-frontend-zeta.vercel.app/followup?id={ticketId}\n\nCordialement,\nÉquipe de Support CES",
    htmlBody := none }

def emailEscalatedKinyarwanda : EmailTemplate :=
  { subject := "Ikibazo {ticketId} Cyoherejwe kuri {escalatedTo} - Ubufasha bwa CES",
    body := "Mwaramutse {name},\n\nIkibazo cyawe cyoherejwe ku rwego rwo hejuru kugira ngo kirangirwe vuba.\n\nIbisobanura by\x27ikibazo:\n- ID ya tiketi: {ticketId}\n- Umutwe w\x27ikibazo: {issueTitle}\n- Imimerere: Cyoherejwe hejuru\n- Cyoherejwe kuri: {escalatedTo}\n- Itariki yoherejweho: {currentDate}\n\nIkibazo cyawe cyahawe {escalatedTo} uzobereye gukemura ibibazo bigoye nk\x27icyawe. Urategereje igisubizo vuba.\n\nTuragushimira kwihangana mu gihe dukora kugira ngo dukemure ikibazo cyawe.\n\nKanda hano kugira ngo urebe ibisobanura by\x27ikibazo: https://ces-frontend-zeta.vercel.app/followup?id={ticketId}\n\nIcyubahiro,\nIkipe y\x27Ubufasha ya CES",
    htmlBody := none }

def emailEscalatedRow : EmailLangRow :=
  { english := emailEscalatedEnglish, french := emailEscalatedFrench, kinyarwanda := emailEscalatedKinyarwanda }

def emailAssignedEnglish : EmailTemplate :=
  { subject := "Issue {ticketId} Assigned to {assignedTo} - CES Support",
    body := "Hello {name},\n\nYour issue has been assigned to a specialist for resolution.\n\nIssue Details:\n- Ticket ID: {ticketId}\n- Issue Title: {issueTitle}\n- Status: Assigned\n- Assigned to: {assignedTo}\n- Assignment Date: {currentDate}\n\n{assignedTo} will be handling your case and will contact you soon with updates or solutions.\n\nThank you for your patience.\n\nClick here to view issue details: https://ces-frontend-zeta.vercel.app/followup?id={ticketId}\n\nBest regards,\nCES Support Team",
    htmlBody := none }

def emailAssignedFrench : EmailTemplate :=
  { subject := "Problème {ticketId} Assigné à {assignedTo} - Support CES",
    body := "Bonjour {name},\n\nVotre problème a été assigné à un spécialiste pour résolution.\n\nDétails du problème:\n- ID du ticket: {ticketId}\n- Titre du problème: {issueTitle}\n- Statut: Assigné\n- Assigné à: {assignedTo}\n- Date d\x27assignation: {currentDate}\n\n{assignedTo} s\x27occupera de votre cas et vous contactera bientôt avec des mises à jour ou des solutions.\n\nMerci pour votre patience.\n\nCliquez ici pour voir les détails du problème: https://ces-frontend-zeta.vercel.app/followup?id={ticketId}\n\nCordialement,\nÉquipe de Support CES",
    htmlBody := none }

def emailAssignedKinyarwanda : EmailTemplate :=
  { subject := "Ikibazo {ticketId} Cyahawe {assignedTo} - Ubufasha bwa CES",
    body := "Mwaramutse {name},\n\nIkibazo cyawe cyahawe inzobere kugira ngo ikemure.\n\nIbisobanura by\x27ikibazo:\n- ID ya tiketi: {ticketId}\n- Umutwe w\x27ikibazo: {issueTitle}\n- Imimerere: Cyahawe\n- Cyahawe: {assignedTo}\n- Itariki cyahaweho: {currentDate}\n\n{assignedTo} azakemura ikibazo cyawe kandi azakugera vuba n\x27amakuru cyangwa ibisubizo.\n\nUrakoze kwihangana.\n\nKanda hano kugira ngo urebe ibisobanura by\x27ikibazo: https://ces-frontend-zeta.vercel.app/followup?id={ticketId}\n\nIcyubahiro,\nIkipe y\x27Ubufasha ya CES",
    htmlBody := none }

def emailAssignedRow : EmailLangRow :=
  { english := emailAssignedEnglish, french := emailAssignedFrench, kinyarwanda := emailAssignedKinyarwanda }

def emailClosedEnglish : EmailTemplate :=
  { subject := "Issue {ticketId} Closed - CES Support",
    body := "Hello {name},\n\nYour issue has been closed.\n\nIssue Details:\n- Ticket ID: {ticketId}\n- Issue Title: {issueTitle}\n- Status: Closed\n- Closure Date: {currentDate}\n\nIf you believe this issue was closed in error or if you have additional questions, please contact us with your ticket ID.\n\nClick here to view issue details: https://ces-frontend-zeta.vercel.app/followup?id={ticketId}\n\nThank you for using our services.\n\nBest regards,\nCES Support Team",
    htmlBody := none }

def emailClosedFrench : EmailTemplate :=
  { subject := "Problème {ticketId} Fermé - Support CES",
    body := "Bonjour {name},\n\nVotre problème a été fermé.\n\nDétails du problème:\n- ID du ticket: {ticketId}\n- Titre du problème: {issueTitle}\n- Statut: Fermé\n- Date de fermeture: {currentDate}\n\nSi vous pensez que ce problème a été fermé par erreur ou si vous avez des questions supplémentaires, veuillez nous contacter avec votre ID de ticket.\n\nCliquez ici pour voir les détails du problème: https://ces-frontend-zeta.vercel.app/followup?id={ticketId}\n\nMerci d\x27utiliser nos services.\n\nCordialement,\nÉquipe de Support CES",
    htmlBody := none }

def emailClosedKinyarwanda : EmailTemplate :=
  { subject := "Ikibazo {ticketId} Cyafunguwe - Ubufasha bwa CES",
    body := "Mwaramutse {name},\n\nIkibazo cyawe cyafunguwe.\n\nIbisobanura by\x27ikibazo:\n- ID ya tiketi: {ticketId}\n- Umutwe w\x27ikibazo: {issueTitle}\n- Imimerere: Cyafunguwe\n- Itariki yafunguwemo: {currentDate}\n\nNiba wibaza ko iki kibazo cyafunguwe mu makosa cyangwa ufite ibindi bibazo, nyamuneka tubabarire ufite ID ya tiketi yawe.\n\nKanda hano kugira ngo urebe ibisobanura by\x27ikibazo: https://ces-frontend-zeta.vercel.app/followup?id={ticketId}\n\nUrakoze gukoresha serivise zacu.\n\nIcyubahiro,\nIkipe y\x27Ubufasha ya CES",
    htmlBody := none }

def emailClosedRow : EmailLangRow :=
  { english := emailClosedEnglish, french := emailClosedFrench, kinyarwanda := emailClosedKinyarwanda }

def emailInProgressEnglish : EmailTemplate :=
  { subject := "Issue {ticketId} In Progress - CES Support",
    body := "Hello {name},\n\nYour issue is currently being processed by our team.\n\nIssue Details:\n- Ticket ID: {ticketId}\n- Issue Title: {issueTitle}\n- Status: In Progress\n- Update Date: {currentDate}\n\nOur team is actively working on resolving your issue. We will keep you updated on the progress.\n\nClick here to view issue details: https://ces-frontend-zeta.vercel.app/followup?id={ticketId}\n\nThank you for your patience.\n\nBest regards,\nCES Support Team",
    htmlBody := none }

def emailInProgressFrench : EmailTemplate :=
  { subject := "Problème {ticketId} En Cours - Support CES",
    body := "Bonjour {name},\n\nVotre problème est actuellement en cours de traitement par notre équipe.\n\nDétails du problème:\n- ID du ticket: {ticketId}\n- Titre du problème: {issueTitle}\n- Statut: En cours\n- Date de mise à jour: {currentDate}\n\nNotre équipe travaille activement à résoudre votre problème. Nous vous tiendrons informé des progrès.\n\nCliquez ici pour voir les détails du problème: https://ces-frontend-zeta.vercel.app/followup?id={ticketId}\n\nMerci pour votre patience.\n\nCordialement,\nÉquipe de Support CES",
    htmlBody := none }

def emailInProgressKinyarwanda : EmailTemplate :=
  { subject := "Ikibazo {ticketId} Kirakoresha - Ubufasha bwa CES",
    body := "Mwaramutse {name},\n\nIkibazo cyawe gisigaye gikoresha n\x27ikipe yacu.\n\nIbisobanura by\x27ikibazo:\n- ID ya tiketi: {ticketId}\n- Umutwe w\x27ikibazo: {issueTitle}\n- Imimerere: Kirakoresha\n- Itariki yahinduwe: {currentDate}\n\nIkipe yacu ikora cyane kugira ngo ikemure ikibazo cyawe. Tuzagufasha amakuru ku myiyoborere.\n\nKanda hano kugira ngo urebe ibisobanura by\x27ikibazo: https://ces-frontend-zeta.vercel.app/followup?id={ticketId}\n\nUrakoze kwihangana.\n\nIcyubahiro,\nIkipe y\x27Ubufasha ya CES",
    htmlBody := none }

def emailInProgressRow : EmailLangRow :=
  { english := emailInProgressEnglish, french := emailInProgressFrench, kinyarwanda := emailInProgressKinyarwanda }

/-- The object literal `templates` of emailTemplates.js, as a JS property
lookup on it: own keys (insertion order: received, resolved, escalated,
assigned, closed, in_progress), then the prototype chain (`constructor`
and `__proto__`), then `undefined`. -/
def templatesTable (key : String) : JsProp EmailLangRow :=
  if key = "received" then .own emailReceivedRow
  else if key = "resolved" then .own emailResolvedRow
  else if key = "escalated" then .own emailEscalatedRow
  else if key = "assigned" then .own emailAssignedRow
  else if key = "closed" then .own emailClosedRow
  else if key = "in_progress" then .own emailInProgressRow
  else if key = "constructor" then .objectCtor
  else if key = "__proto__" then .objectProto
  else .undefinedProp

/-- JS property access `row[language]` on a language row: own keys, then
the prototype chain, then `undefined`. -/
def EmailLangRow.get (r : EmailLangRow) (lang : String) : JsProp EmailTemplate :=
  if lang = "english" then .own r.english
  else if lang = "french" then .own r.french
  else if lang = "kinyarwanda" then .own r.kinyarwanda
  else if lang = "constructor" then .objectCtor
  else if lang = "__proto__" then .objectProto
  else .undefinedProp

/-- `getAvailableStatuses()` of emailTemplates.js. -/
def getAvailableStatuses : List String :=
  ["received", "resolved", "escalated", "assigned", "closed", "in_progress"]

/-- `getAvailableLanguages()` of emailTemplates.js. -/
def getAvailableLanguages : List String :=
  ["english", "french", "kinyarwanda"]

/-- `getTemplate(status, language)` of emailTemplates.js: same shape as the
SMS store lookup, prototype chain included. -/
def getTemplate (status language : Option String) : TemplateResult EmailTemplate :=
  let normalizedStatus := normKeyOpt status
  let normalizedLanguage := language.map jsLower
  match normalizedStatus with
  | none => .nullResult
  | some st =>
    match templatesTable st with
    | .undefinedProp => .nullResult
    | .own row =>
      match (match normalizedLanguage with
             | none => JsProp.undefinedProp
             | some l => row.get l) with
      | .own t => .found t
      | .objectCtor => .hostValue ("constructor")
      | .objectProto => .hostValue ("__proto__")
      | .undefinedProp => .found row.english
    | .objectCtor =>
      match (match normalizedLanguage with
             | none => HostProp.undefinedProp
             | some l => objectCtorGet l) with
      | .truthy n => .hostValue n
      | .falsy => .nullResult
      | .throws => .thrown
      | .undefinedProp => .nullResult
    | .objectProto =>
      match (match normalizedLanguage with
             | none => HostProp.undefinedProp
             | some l => objectProtoGet l) with
      | .truthy n => .hostValue n
      | .falsy => .nullResult
      | .throws => .thrown
      | .undefinedProp => .nullResult

/-- `hasTemplate(status)` of emailTemplates.js: `!!templates[st]`, true for
the six own keys and for the truthy inherited `constructor`/`__proto__`. -/
def hasTemplate (status : Option String) : Bool :=
  match normKeyOpt status with
  | none => false
  | some st =>
    match templatesTable st with
    | .undefinedProp => false
    | _ => true

end EmailTemplates

/-! ## Shared request shapes -/

/-- The data bag passed by the services and validators to the template
renderers (`{name, ticketId, issueTitle, assignedTo, escalatedTo,
responseMessage}`). -/
structure TplData where
  name : Option String
  ticketId : Option String
  issueTitle : Option String
  assignedTo : Option String
  escalatedTo : Option String
  responseMessage : Option String
deriving DecidableEq, Repr

/-- An SMS dispatch request object (all fields may be absent). -/
structure SmsData where
  phoneNumber : Option String
  ticketId : Option String
  name : Option String
  language : Option String
  subject : Option String
  assignedTo : Option String
  escalatedTo : Option String
  issueTitle : Option String
  responseMessage : Option String
deriving DecidableEq, Repr

/-- An email dispatch request object. -/
structure EmailData where
  email : Option String
  ticketId : Option String
  name : Option String
  language : Option String
  subject : Option String
  assignedTo : Option String
  escalatedTo : Option String
  issueTitle : Option String
  responseMessage : Option String
deriving DecidableEq, Repr

/-- A trip notification request object. -/
structure TripData where
  email : Option String
  phoneNumber : Option String
  name : Option String
  language : Option String
  notificationType : Option String
  destinationName : Option String
  remainingTime : Option String
  tripId : Option String
deriving DecidableEq, Repr

namespace SmsTemplates

/-- The record returned by `getTemplateInfo` of smsTemplates.js. -/
structure TemplateInfo where
  totalChars : Nat
  maxCharsPerPart : Nat
  parts : Nat
  isMultiPart : Bool
  remainingChars : Nat
  message : String
deriving DecidableEq, Repr

/-- `getTemplateInfo(status, language, data)` of smsTemplates.js: render the
template with sample defaults and measure it against a flat 153-characters
plain-text limit.  `currentDate` stands for `new Date().toLocaleDateString()`.
`.ok none` is the null return for an unresolvable template; `.error` is the
TypeError that escapes when the lookup leaks a truthy non-template host
value (reading `.replace` off its undefined `message`) or throws itself. -/
def getTemplateInfo (status language : Option String) (data : TplData)
    (currentDate : String) : Except String (Option TemplateInfo) :=
  match getTemplate status language with
  | .nullResult => .ok none
  | .hostValue _ => .error readReplaceOfUndefinedMsg
  | .thrown => .error restrictedFunctionPropsMsg
  | .found template =>
    let sampleData : List (String × String) :=
      [("{name}", orDefault data.name ("Customer")),
       ("{ticketId}", orDefault data.ticketId ("TK12345")),
       ("{issueTitle}", orDefault data.issueTitle ("Issue")),
       ("{assignedTo}", orDefault data.assignedTo ("Support Team")),
       ("{escalatedTo}", orDefault data.escalatedTo ("Support Team")),
       ("{responseMessage}", orDefault data.responseMessage ("Resolved")),
       ("{currentDate}", currentDate)]
    let message := sampleData.foldl (fun m pv => jsReplaceAll m pv.1 pv.2) template.message
    let totalChars := message.length
    let maxCharsPerPart := 153
    let parts := (totalChars + (maxCharsPerPart - 1)) / maxCharsPerPart
    .ok (some { totalChars := totalChars, maxCharsPerPart := maxCharsPerPart,
                parts := parts, isMultiPart := decide (1 < parts),
                remainingChars := maxCharsPerPart - totalChars % maxCharsPerPart,
                message := message })

/-- The result of `validateTemplateLength` of smsTemplates.js. -/
structure LengthCheck where
  isValid : Bool
  error : Option String
deriving DecidableEq, Repr

/-- `validateTemplateLength(status, language, data)` of smsTemplates.js:
reject when the template cannot be resolved or the 153-per-segment part
count exceeds 5; a TypeError thrown inside `getTemplateInfo` propagates. -/
def validateTemplateLength (status language : Option String) (data : TplData)
    (currentDate : String) : Except String LengthCheck :=
  match getTemplateInfo status language data currentDate with
  | .error m => .error m
  | .ok none => .ok { isValid := false, error := some ("Template not found") }
  | .ok (some info) =>
    if 5 < info.parts then
      .ok { isValid := false,
            error := some ("Message too long: " ++ toString info.parts ++ " parts (max 5 allowed)") }
    else
      .ok { isValid := true, error := none }

end SmsTemplates

/-! ## Validators (src/validators.js) -/

namespace Validators

/-- The `{isValid, errors}` result shape shared by all validators. -/
structure ValidationResult where
  isValid : Bool
  errors : List String
deriving DecidableEq, Repr

/-- `isValidEmail`: the regex `^[^\s@]+@[^\s@]+\.[^\s@]+$` — exactly one
`@`, a nonempty whitespace-free local part, and a whitespace-free domain
containing a dot that is neither its first nor its last character. -/
def isValidEmail (email : String) : Bool :=
  match splitAtPred (fun c => c = '@') email.data with
  | [a, r] =>
    !(a.isEmpty) && a.all (fun c => !(jsIsSpace c)) &&
    !(r.isEmpty) && r.all (fun c => !(jsIsSpace c)) &&
    ((r.drop 1).dropLast.contains '.')
  | _ => false

/-- Character class `[A-Za-z0-9\-_]` of `isValidTicketId`. -/
def ticketChar (c : Char) : Bool :=
  c.isAlpha || c.isDigit || c = '-' || c = '_'

/-- `isValidTicketId`: the regex `^[A-Za-z0-9\-_]{1,50}$`. -/
def isValidTicketId (ticketId : String) : Bool :=
  decide (1 ≤ ticketId.length ∧ ticketId.length ≤ 50) && ticketId.data.all ticketChar

/-- Character class letters/whitespace/hyphen/apostrophe of `isValidName`. -/
def nameChar (c : Char) : Bool :=
  c.isAlpha || jsIsSpace c || c = '-' || c = '\x27'

/-- `isValidName`: the regex of letters, whitespace, hyphen and apostrophe, length 1 to 100. -/
def isValidName (name : String) : Bool :=
  decide (1 ≤ name.length ∧ name.length ≤ 100) && name.data.all nameChar

/-- `isValidLanguage` of validators.js: a supported language name or one of
a key of the alias map (note: here the native French spelling is correctly
encoded, unlike in the `normalizeLanguage` of the services). -/
def isValidLanguage (language : String) : Bool :=
  let normalizedLanguage := jsLower language
  EmailTemplates.getAvailableLanguages.contains normalizedLanguage ||
  ["en", "fr", "rw", "kin", "français"].contains normalizedLanguage

/-- `isValidSubject` of validators.js. -/
def isValidSubject (subject : String) : Bool :=
  EmailTemplates.getAvailableStatuses.contains (normKey subject)

/-- `isValidPhoneNumber`: strip non-digits, then require 7–15 digits. -/
def isValidPhoneNumber (phoneNumber : String) : Bool :=
  let cleaned := phoneNumber.data.filter Char.isDigit
  decide (7 ≤ cleaned.length ∧ cleaned.length ≤ 15) && cleaned.all Char.isDigit

/-- `isValidTripNotificationType` of validators.js. -/
def isValidTripNotificationType (notificationType : String) : Bool :=
  ["trip_remaining_time", "trip_arrival_notice"].contains (normKey notificationType)

/-- Character class of `isValidDestinationName`: letters, whitespace, hyphen,
apostrophe, and common punctuation. -/
def destChar (c : Char) : Bool :=
  c.isAlpha || jsIsSpace c || c = '-' || c = '\x27' || c = '.' || c = ',' || c = '(' || c = ')'

/-- `isValidDestinationName`: letters, whitespace, hyphen, apostrophe and
common punctuation, length 1 to 100. -/
def isValidDestinationName (destinationName : String) : Bool :=
  decide (1 ≤ destinationName.length ∧ destinationName.length ≤ 100) &&
  destinationName.data.all destChar

/-- A token that is a nonempty run of digits (`\d+`). -/
def isNumToken (w : String) : Bool :=
  !(w = "") && w.data.all Char.isDigit

/-- A unit word of the first alternative: `(hour|minute|day|week)s?`. -/
def unitWord1 (w : String) : Bool :=
  w = "hour" || w = "hours" || w = "minute" || w = "minutes" ||
  w = "day" || w = "days" || w = "week" || w = "weeks"

/-- A unit word of the `and` clause: `(hour|minute)s?`. -/
def unitWord2 (w : String) : Bool :=
  w = "hour" || w = "hours" || w = "minute" || w = "minutes"

/-- `isValidRemainingTime`: the case-insensitive regex
`^(\d+\s+(hour|minute|day|week)s?(\s+and\s+\d+\s+(hour|minute)s?)?|\d+\s+(hour|minute|day|week)s?)$`.
Since the pattern is anchored, starts with `\d` and ends with a unit word,
it is equivalent to: no leading/trailing whitespace and the
whitespace-separated tokens are `[number, unit]` or
`[number, unit, "and", number, unit2]`. -/
def isValidRemainingTime (s : String) : Bool :=
  let l := (jsLower s).data
  let noLead := match l.head? with
    | some c => !(jsIsSpace c)
    | none => false
  let noTrail := match l.getLast? with
    | some c => !(jsIsSpace c)
    | none => false
  let tokens := ((splitAtPred jsIsSpace l).filter (fun p => !(p.isEmpty))).map
    (fun p => String.mk p)
  let shape :=
    match tokens with
    | [n, u] => isNumToken n && unitWord1 u
    | [n, u, a, n2, u2] =>
      isNumToken n && unitWord1 u && a = "and" && isNumToken n2 && unitWord2 u2
    | _ => false
  noLead && noTrail && shape

/-- Validation of a required string field: absent/empty gives the
"required" error, otherwise the trimmed value is format-checked. -/
def requiredErrs (v : Option String) (reqMsg : String) (ok : String → Bool)
    (badMsg : String) : List String :=
  match v with
  | none => [reqMsg]
  | some s => if s = "" then [reqMsg] else if ok (jsTrim s) then [] else [badMsg]

/-- Validation of the optional name-shaped fields (`assignedTo`,
`escalatedTo`): checked only when present, nonempty, and nonblank after
trimming. -/
def optNameErrs (v : Option String) (badMsg : String) : List String :=
  match v with
  | none => []
  | some s =>
    if s = "" then []
    else if jsTrim s = "" then []
    else if isValidName (jsTrim s) then [] else [badMsg]

/-- Validation of the optional length-capped fields (`issueTitle`,
`responseMessage`, `tripId`). -/
def optLenErrs (v : Option String) (maxLen : Nat) (badMsg : String) : List String :=
  match v with
  | none => []
  | some s => if s = "" then [] else if decide (maxLen < s.length) then [badMsg] else []

/-- The conditional assignee/escalation requirement shared verbatim by the
email and SMS validators: it fires only when BOTH `assignedTo` and
`escalatedTo` are falsy. -/
def condRoleErrs (subject assignedTo escalatedTo : Option String) : List String :=
  let subj := normKeyOpt subject
  if (subj = some ("assigned") || subj = some ("escalated")) &&
      !(truthy assignedTo) && !(truthy escalatedTo) then
    (if subj = some ("assigned") then ["assignedTo is required when subject is \"assigned\""] else [])
    ++ (if subj = some ("escalated") then ["escalatedTo is required when subject is \"escalated\""] else [])
  else []

/-- The language error message (`language must be one of: ` + the joined
available languages). -/
def languageErrMsg : String :=
  "language must be one of: " ++ String.intercalate (", ") EmailTemplates.getAvailableLanguages

/-- The subject error message (`subject must be one of: ` + the joined
available statuses). -/
def subjectErrMsg : String :=
  "subject must be one of: " ++ String.intercalate (", ") EmailTemplates.getAvailableStatuses

/-- All field-level and conditional errors of `validateEmailRequest`, in
push order. -/
def emailPreErrors (e : EmailData) : List String :=
  requiredErrs e.email ("email is required") isValidEmail
    ("email must be a valid email address")
  ++ requiredErrs e.ticketId ("ticketId is required") isValidTicketId
    ("ticketId must contain only alphanumeric characters, hyphens, and underscores (1-50 characters)")
  ++ requiredErrs e.name ("name is required") isValidName
    ("name must contain only letters, spaces, hyphens, and apostrophes (1-100 characters)")
  ++ requiredErrs e.language ("language is required") isValidLanguage languageErrMsg
  ++ requiredErrs e.subject ("subject is required") isValidSubject subjectErrMsg
  ++ optNameErrs e.assignedTo
    ("assignedTo must contain only letters, spaces, hyphens, and apostrophes (1-100 characters)")
  ++ optNameErrs e.escalatedTo
    ("escalatedTo must contain only letters, spaces, hyphens, and apostrophes (1-100 characters)")
  ++ optLenErrs e.issueTitle 200 ("issueTitle must be 200 characters or less")
  ++ optLenErrs e.responseMessage 2000 ("responseMessage must be 2000 characters or less")
  ++ condRoleErrs e.subject e.assignedTo e.escalatedTo

/-- `validateEmailRequest(emailData)` of validators.js. -/
def validateEmailRequest (d : Option EmailData) : ValidationResult :=
  match d with
  | none => { isValid := false, errors := ["Email data is required"] }
  | some e =>
    let errors := emailPreErrors e
    { isValid := errors.isEmpty, errors := errors }

/-- All field-level and conditional errors of `validateSmsRequest` that
precede the template-length check, in push order. -/
def smsPreErrors (s : SmsData) : List String :=
  requiredErrs s.phoneNumber ("phoneNumber is required") isValidPhoneNumber
    ("phoneNumber must be a valid phone number (7-15 digits)")
  ++ requiredErrs s.ticketId ("ticketId is required") isValidTicketId
    ("ticketId must contain only alphanumeric characters, hyphens, and underscores (1-50 characters)")
  ++ requiredErrs s.name ("name is required") isValidName
    ("name must contain only letters, spaces, hyphens, and apostrophes (1-100 characters)")
  ++ requiredErrs s.language ("language is required") isValidLanguage languageErrMsg
  ++ requiredErrs s.subject ("subject is required") isValidSubject subjectErrMsg
  ++ optNameErrs s.assignedTo
    ("assignedTo must contain only letters, spaces, hyphens, and apostrophes (1-100 characters)")
  ++ optNameErrs s.escalatedTo
    ("escalatedTo must contain only letters, spaces, hyphens, and apostrophes (1-100 characters)")
  ++ optLenErrs s.issueTitle 200 ("issueTitle must be 200 characters or less")
  ++ optLenErrs s.responseMessage 2000 ("responseMessage must be 2000 characters or less")
  ++ condRoleErrs s.subject s.assignedTo s.escalatedTo

/-- `validateSmsRequest(smsData)` of validators.js: field validation, then
(only when no field error occurred) the SMS template-length check. -/
def validateSmsRequest (d : Option SmsData) (currentDate : String) : ValidationResult :=
  match d with
  | none => { isValid := false, errors := ["SMS data is required"] }
  | some s =>
    let pre := smsPreErrors s
    let errors :=
      if pre.isEmpty then
        match SmsTemplates.validateTemplateLength s.subject s.language
            ⟨s.name, s.ticketId, s.issueTitle, s.assignedTo, s.escalatedTo, s.responseMessage⟩
            currentDate with
        | .ok { isValid := true, error := _ } => []
        | .ok { isValid := false, error := e } => [e.getD ("")]
        -- dead arm: an `.error` needs the raw subject to normalize to
        -- `constructor`/`__proto__` or the raw language to lower-case to
        -- them, and such values fail `isValidSubject`/`isValidLanguage`
        -- above, so `pre` is nonempty and the length check never runs
        | .error m => [m]
      else pre
    { isValid := errors.isEmpty, errors := errors }

/-- The contact requirement of `validateTripRequest`. -/
def tripContactErrs (t : TripData) : List String :=
  if !(truthy t.email) && !(truthy t.phoneNumber) then
    ["Either email or phoneNumber is required"]
  else []

/-- Validation of an optional contact field of `validateTripRequest`
(checked only when truthy). -/
def optContactErrs (v : Option String) (ok : String → Bool) (badMsg : String) : List String :=
  match v with
  | none => []
  | some s => if s = "" then [] else if ok (jsTrim s) then [] else [badMsg]

/-- The `remainingTime` requirement of `validateTripRequest`: guarded by a
STRICT equality of the raw `notificationType` with `trip_remaining_time`
(not by the normalized type). -/
def tripRemainingErrs (t : TripData) : List String :=
  if t.notificationType = some ("trip_remaining_time") then
    match t.remainingTime with
    | none => ["remainingTime is required for trip_remaining_time notifications"]
    | some s =>
      if s = "" then ["remainingTime is required for trip_remaining_time notifications"]
      else if isValidRemainingTime (jsTrim s) then []
      else ["remainingTime must be in a valid format (e.g., \"2 hours\", \"30 minutes\", \"1 hour 30 minutes\")"]
  else []

/-- All errors of `validateTripRequest`, in push order. -/
def tripPreErrors (t : TripData) : List String :=
  tripContactErrs t
  ++ optContactErrs t.email isValidEmail ("email must be a valid email address")
  ++ optContactErrs t.phoneNumber isValidPhoneNumber
    ("phoneNumber must be a valid phone number (7-15 digits)")
  ++ requiredErrs t.name ("name is required") isValidName
    ("name must contain only letters, spaces, hyphens, and apostrophes (1-100 characters)")
  ++ requiredErrs t.language ("language is required") isValidLanguage languageErrMsg
  ++ requiredErrs t.notificationType ("notificationType is required") isValidTripNotificationType
    ("notificationType must be one of: trip_remaining_time, trip_arrival_notice")
  ++ requiredErrs t.destinationName ("destinationName is required") isValidDestinationName
    ("destinationName must contain only letters, spaces, hyphens, apostrophes, and common punctuation (1-100 characters)")
  ++ tripRemainingErrs t
  ++ optLenErrs t.tripId 50 ("tripId must be 50 characters or less")

/-- `validateTripRequest(tripData)` of validators.js. -/
def validateTripRequest (d : Option TripData) : ValidationResult :=
  match d with
  | none => { isValid := false, errors := ["Trip data is required"] }
  | some t =>
    let errors := tripPreErrors t
    { isValid := errors.isEmpty, errors := errors }

/-- A JS value that is either an array or something else (`Array.isArray`
distinguishes the two). -/
inductive JsArrayOr (α : Type) where
  | notArray
  | array (xs : List α)

/-- Pair every element with its 0-based index (JS `forEach((x, index))`). -/
def withIdx {α : Type} : Nat → List α → List (Nat × α)
  | _, [] => []
  | i, x :: xs => (i, x) :: withIdx (i + 1) xs

/-- `validateBulkEmailRequest(emails)` of validators.js: array shape, 1–50
items, then per-item errors prefixed with the 1-based index. -/
def validateBulkEmailRequest (input : JsArrayOr (Option EmailData)) : ValidationResult :=
  match input with
  | .notArray => { isValid := false, errors := ["emails must be an array"] }
  | .array xs =>
    if xs.length = 0 then
      { isValid := false, errors := ["emails array cannot be empty"] }
    else if decide (50 < xs.length) then
      { isValid := false, errors := ["maximum 50 emails allowed per batch"] }
    else
      let errors := (withIdx 0 xs).flatMap (fun p =>
        let v := validateEmailRequest p.2
        if v.isValid then []
        else v.errors.map (fun e => "Email " ++ toString (p.1 + 1) ++ ": " ++ e))
      { isValid := errors.isEmpty, errors := errors }

/-- `validateBulkSmsRequest(smsList)` of validators.js: array shape, 1–30
items, then per-item errors prefixed with the 1-based index. -/
def validateBulkSmsRequest (input : JsArrayOr (Option SmsData)) (currentDate : String) :
    ValidationResult :=
  match input with
  | .notArray => { isValid := false, errors := ["smsList must be an array"] }
  | .array xs =>
    if xs.length = 0 then
      { isValid := false, errors := ["smsList array cannot be empty"] }
    else if decide (30 < xs.length) then
      { isValid := false, errors := ["maximum 30 SMS messages allowed per batch"] }
    else
      let errors := (withIdx 0 xs).flatMap (fun p =>
        let v := validateSmsRequest p.2 currentDate
        if v.isValid then []
        else v.errors.map (fun e => "SMS " ++ toString (p.1 + 1) ++ ": " ++ e))
      { isValid := errors.isEmpty, errors := errors }

/-- `validateBulkTripRequest(tripList)` of validators.js: array shape, 1–20
items, then per-item errors prefixed with the 1-based index. -/
def validateBulkTripRequest (input : JsArrayOr (Option TripData)) : ValidationResult :=
  match input with
  | .notArray => { isValid := false, errors := ["tripList must be an array"] }
  | .array xs =>
    if xs.length = 0 then
      { isValid := false, errors := ["tripList array cannot be empty"] }
    else if decide (20 < xs.length) then
      { isValid := false, errors := ["maximum 20 trip notifications allowed per batch"] }
    else
      let errors := (withIdx 0 xs).flatMap (fun p =>
        let v := validateTripRequest p.2
        if v.isValid then []
        else v.errors.map (fun e => "Trip " ++ toString (p.1 + 1) ++ ": " ++ e))
      { isValid := errors.isEmpty, errors := errors }

end Validators

/-! ## Language normalizer of the services

`normalizeLanguage` appears with an identical body in both
smsService.js and emailService.js; it is embedded once.  Note the source
literally contains the mojibake string `fran√ßais` (bytes `E2 88 9A C3 9F`
after `fran`) where the French spelling `français` was intended. -/

/-- `SmsService.normalizeLanguage` / `EmailService.normalizeLanguage`:
total mapping of a free-form language hint to english/french/kinyarwanda. -/
def normalizeLanguage (language : Option String) : String :=
  match language with
  | none => "english"
  | some l =>
    let lang := jsTrim (jsLower l)
    if lang = "french" || lang = "fr" || lang = "fran√ßais" then "french"
    else if lang = "kinyarwanda" || lang = "rw" || lang = "kin" then "kinyarwanda"
    else "english"

/-! ## SMS service (src/smsService.js) -/

namespace SmsService

/-- `SmsService.buildSmsMessage(template, data)`: sequential global
replacement of each placeholder (SMS defaults; `currentDate` stands for
`new Date().toLocaleDateString()`). -/
def buildSmsMessage (template : SmsTemplates.SmsTemplate) (data : TplData)
    (currentDate : String) : String :=
  let replacements : List (String × String) :=
    [("{name}", orDefault data.name ("Customer")),
     ("{ticketId}", orDefault data.ticketId ("N/A")),
     ("{issueTitle}", orDefault data.issueTitle ("Your Issue")),
     ("{assignedTo}", orDefault data.assignedTo ("")),
     ("{escalatedTo}", orDefault data.escalatedTo ("")),
     ("{responseMessage}", orDefault data.responseMessage ("")),
     ("{currentDate}", currentDate)]
  replacements.foldl (fun m pv => jsReplaceAll m pv.1 pv.2) template.message

/-- `SmsService.determineMessageType(message, language)`: unicode when the
message contains a character outside `\x00`–`\x7F` or the language is
kinyarwanda, else plain. -/
def determineMessageType (message : String) (language : String) : String :=
  let hasUnicode := message.data.any (fun c => decide (127 < c.toNat))
  if language = "kinyarwanda" || hasUnicode then "unicode" else "plain"

/-- The record returned by `SmsService.getMessageInfo`. -/
structure MessageInfo where
  totalChars : Nat
  maxCharsPerPart : Nat
  parts : Nat
  isMultiPart : Bool
  remainingChars : Nat
deriving DecidableEq, Repr

/-- `SmsService.getMessageInfo(message, type)`: 67 characters per part for
unicode, 153 for plain; `parts = ceil(totalChars / maxCharsPerPart)`. -/
def getMessageInfo (message : String) (ty : String) : MessageInfo :=
  let maxCharsPerPart := if ty = "unicode" then 67 else 153
  let totalChars := message.length
  let parts := (totalChars + (maxCharsPerPart - 1)) / maxCharsPerPart
  { totalChars := totalChars, maxCharsPerPart := maxCharsPerPart,
    parts := parts, isMultiPart := decide (1 < parts),
    remainingChars := maxCharsPerPart - totalChars % maxCharsPerPart }

/-- The outcome of one `axios.request` call, as distinguished by
the catch clause of `SmsService.sendSms`. -/
inductive AxiosOutcome where
  | success
  | respError (message : Option String) (statusText : String) (status : Nat)
  | noResponse
  | requestError (message : String)

/-- An axios oracle keyed by (recipient, message, type). -/
def AxiosOracle : Type := String → String → String → AxiosOutcome

/-- `SmsService.sendSms(phoneNumber, message, type)`: one transport call;
failures are re-thrown as `Error`s with the messages built in the source.
The `Except.error` branch is the thrown exception. -/
def sendSms (axios : AxiosOracle) (phoneNumber message ty : String) :
    Except String Unit :=
  match axios phoneNumber message ty with
  | .success => .ok ()
  | .respError m st code =>
    .error ("SMS API Error: " ++ orDefault m st ++ " (" ++ toString code ++ ")")
  | .noResponse => .error ("SMS API request failed: No response received")
  | .requestError m => .error ("SMS API request failed: " ++ m)

/-- The result object returned by `SmsService.sendIssueSms`. -/
structure SendResult where
  success : Bool
  status : String
  message : String
  phoneNumber : Option String
  ticketId : Option String
  error : Option String
deriving DecidableEq, Repr

/-- The try-block of `SmsService.sendIssueSms`: each `throw` is an
`Except.error`.  The `none` request body cannot reach the destructuring
(validation fails first), but is modelled as the TypeError JS would raise. -/
def sendIssueSmsBody (axios : AxiosOracle) (smsData : Option SmsData)
    (currentDate : String) : Except String SendResult :=
  let validation := Validators.validateSmsRequest smsData currentDate
  if !validation.isValid then
    .error ("Validation failed: " ++ String.intercalate (", ") validation.errors)
  else
    match smsData with
    | none =>
      .error ("Cannot destructure property \x27phoneNumber\x27 of \x27smsData\x27 as it is null.")
    | some d =>
      let normalizedLanguage := normalizeLanguage d.language
      match SmsTemplates.getTemplate d.subject (some normalizedLanguage) with
      | .nullResult =>
        .error ("Template not found for status: " ++ jsStr d.subject ++
          " and language: " ++ normalizedLanguage)
      -- a truthy non-template has no `message`, so `buildSmsMessage`
      -- raises a TypeError; both TypeErrors land in the catch clause
      | .hostValue _ => .error readReplaceOfUndefinedMsg
      | .thrown => .error restrictedFunctionPropsMsg
      | .found template =>
        let message := buildSmsMessage template
          ⟨d.name, d.ticketId, d.issueTitle, d.assignedTo, d.escalatedTo, d.responseMessage⟩
          currentDate
        let messageType := determineMessageType message normalizedLanguage
        match sendSms axios (jsStr d.phoneNumber) message messageType with
        | .error e => .error e
        | .ok _ =>
          .ok { success := true, status := "sent", message := "SMS sent successfully",
                phoneNumber := d.phoneNumber, ticketId := d.ticketId, error := none }

/-- `SmsService.sendIssueSms(smsData)`: the whole body runs inside
`try`/`catch`; any thrown error is converted to a failed result. -/
def sendIssueSms (axios : AxiosOracle) (smsData : Option SmsData)
    (currentDate : String) : SendResult :=
  match sendIssueSmsBody axios smsData currentDate with
  | .ok r => r
  | .error e =>
    { success := false, status := "failed", message := e,
      phoneNumber := none, ticketId := none, error := some e }

/-- One per-recipient entry of the `sendBulkSms` result array.  `status` is
absent on the template-not-found entries (the source pushes a result object
without a `status` field there). -/
structure BulkSmsEntry where
  phoneNumber : Option String
  ticketId : Option String
  success : Bool
  status : Option String
  message : String
deriving DecidableEq, Repr

/-- A recipient as recorded in a message group. -/
structure SmsRecipient where
  phoneNumber : Option String
  ticketId : Option String
  name : Option String
deriving DecidableEq, Repr

/-- One entry of the `messageGroups` object of `sendBulkSms`. -/
structure SmsGroup where
  key : String
  message : String
  ty : String
  recipients : List SmsRecipient
deriving DecidableEq, Repr

/-- Insertion into `messageGroups`: JS object keys of the form
`message + "_" + type` are never array indices, so `Object.entries`
preserves insertion order; a new key is appended, and for an existing key
the recipient list is extended. -/
def insertGroup : List SmsGroup → String → String → String → SmsRecipient → List SmsGroup
  | [], key, m, ty, r => [{ key := key, message := m, ty := ty, recipients := [r] }]
  | g :: gs, key, m, ty, r =>
    if g.key = key then
      { key := g.key, message := g.message, ty := g.ty, recipients := g.recipients ++ [r] } :: gs
    else
      g :: insertGroup gs key m ty r

/-- The first loop of `SmsService.sendBulkSms`: destructure each request
(throwing a TypeError on a null element — the loop body is NOT inside a
try/catch), resolve its template, push a failed result on resolution
failure, otherwise add the rendered message to its group. -/
def bulkSmsPhase1 (currentDate : String) :
    List (Option SmsData) → List BulkSmsEntry × List SmsGroup →
    Except String (List BulkSmsEntry × List SmsGroup)
  | [], acc => .ok acc
  | none :: _, _ =>
    .error ("Cannot destructure property \x27phoneNumber\x27 of \x27smsData\x27 as it is null.")
  | some d :: rest, (fails, groups) =>
    let normalizedLanguage := normalizeLanguage d.language
    match SmsTemplates.getTemplate d.subject (some normalizedLanguage) with
    | .nullResult =>
      bulkSmsPhase1 currentDate rest
        (fails ++ [{ phoneNumber := d.phoneNumber, ticketId := d.ticketId,
                     success := false, status := none,
                     message := "Template not found for status: " ++ jsStr d.subject ++
                       " and language: " ++ normalizedLanguage }],
         groups)
    -- the normalized language is always english/french/kinyarwanda, so
    -- these two TypeError arms are dead; were they reached, the error
    -- would escape the un-guarded loop like the destructuring one
    | .hostValue _ => .error readReplaceOfUndefinedMsg
    | .thrown => .error restrictedFunctionPropsMsg
    | .found template =>
      let message := buildSmsMessage template
        ⟨d.name, d.ticketId, d.issueTitle, d.assignedTo, d.escalatedTo, d.responseMessage⟩
        currentDate
      let messageType := determineMessageType message normalizedLanguage
      let messageKey := message ++ "_" ++ messageType
      bulkSmsPhase1 currentDate rest
        (fails,
         insertGroup groups messageKey message messageType
           ⟨d.phoneNumber, d.ticketId, d.name⟩)

/-- The second loop of `SmsService.sendBulkSms`: one transport call per
group (recipients joined with `", "`), fanned out to one result per
recipient; a failed call fails every member of its group. -/
def bulkSmsPhase2 (axios : AxiosOracle) (groups : List SmsGroup) : List BulkSmsEntry :=
  groups.flatMap (fun g =>
    let phoneNumbers := String.intercalate (", ") (g.recipients.map (fun r => r.phoneNumber.getD ("")))
    match sendSms axios phoneNumbers g.message g.ty with
    | .ok _ =>
      g.recipients.map (fun r =>
        { phoneNumber := r.phoneNumber, ticketId := r.ticketId,
          success := true, status := some ("sent"), message := "SMS sent successfully" })
    | .error e =>
      g.recipients.map (fun r =>
        { phoneNumber := r.phoneNumber, ticketId := r.ticketId,
          success := false, status := some ("failed"), message := e }))

/-- `SmsService.sendBulkSms(smsList)`: group by identical
(message, type), then send per group.  The `Except.error` branch is an
exception escaping the (un-guarded) loop to the caller. -/
def sendBulkSms (axios : AxiosOracle) (currentDate : String)
    (smsList : List (Option SmsData)) : Except String (List BulkSmsEntry) :=
  match bulkSmsPhase1 currentDate smsList ([], []) with
  | .error e => .error e
  | .ok (fails, groups) => .ok (fails ++ bulkSmsPhase2 axios groups)

end SmsService

/-! ## Email service (src/emailService.js) -/

namespace EmailService

/-- `EmailService.buildEmailSubject(status, ticketId, template, assignedTo,
escalatedTo)`: note that every replacement uses the STRING form of
`String.prototype.replace`, which replaces only the first occurrence, and
that the role substitutions are conditional on the raw status. -/
def buildEmailSubject (status : Option String) (ticketId : Option String)
    (template : EmailTemplates.EmailTemplate)
    (assignedTo escalatedTo : Option String) : String :=
  let subject := jsReplaceFirst template.subject ("{ticketId}") (jsStr ticketId)
  let subject :=
    if truthy assignedTo && (status = some ("assigned") || status = some ("escalated")) then
      jsReplaceFirst subject ("{assignedTo}") (assignedTo.getD (""))
    else subject
  let subject :=
    if truthy escalatedTo && status = some ("escalated") then
      jsReplaceFirst subject ("{escalatedTo}") (escalatedTo.getD (""))
    else subject
  subject

/-- `EmailService.convertTextToHtml(text)`: the fixed paragraph/line-break
conversion chain. -/
def convertTextToHtml (text : String) : String :=
  let s1 := jsReplaceAll text ("\n\n") ("</p><p>")
  let s2 := jsReplaceAll s1 ("\n") ("<br>")
  let s3 := "<p>" ++ s2
  let s4 := s3 ++ "</p>"
  jsReplaceAll s4 ("<p></p>") ("")

/-- `EmailService.buildEmailBody(template, data)`: global replacement of
each placeholder in both the text and the (possibly derived) HTML body;
`currentDate` stands for `new Date().toLocaleString()`. -/
def buildEmailBody (template : EmailTemplates.EmailTemplate) (data : TplData)
    (currentDate : String) : String × String :=
  let textBody := template.body
  let htmlBody :=
    match template.htmlBody with
    | some h => if h = "" then convertTextToHtml template.body else h
    | none => convertTextToHtml template.body
  let replacements : List (String × String) :=
    [("{name}", orDefault data.name ("Valued Customer")),
     ("{ticketId}", orDefault data.ticketId ("N/A")),
     ("{issueTitle}", orDefault data.issueTitle ("Your Issue")),
     ("{assignedTo}", orDefault data.assignedTo ("")),
     ("{escalatedTo}", orDefault data.escalatedTo ("")),
     ("{responseMessage}", orDefault data.responseMessage ("")),
     ("{currentDate}", currentDate)]
  replacements.foldl
    (fun bodies pv => (jsReplaceAll bodies.1 pv.1 pv.2, jsReplaceAll bodies.2 pv.1 pv.2))
    (textBody, htmlBody)

/-- The outcome of one `sgMail.send` call: success carries the
`x-message-id` header; a thrown error carries `error.message` and the
optional `error.response.body`. -/
inductive SgOutcome where
  | success (messageId : String)
  | failure (message : String) (responseBody : Option String)

/-- The message object handed to `sgMail.send`. -/
structure EmailMsg where
  toAddr : Option String
  fromEmail : String
  fromName : String
  subject : String
  text : String
  html : String
deriving DecidableEq, Repr

/-- A sgMail oracle. -/
def SgOracle : Type := EmailMsg → SgOutcome

/-- A thrown JS error as observed by the catch clause of `sendIssueEmail`. -/
structure JsError where
  message : String
  responseBody : Option String
deriving DecidableEq, Repr

/-- The result object returned by `EmailService.sendIssueEmail`. -/
structure EmailResult where
  success : Bool
  messageId : Option String
  status : String
  message : String
  error : Option String
deriving DecidableEq, Repr

/-- The try-block of `EmailService.sendIssueEmail`. -/
def sendIssueEmailBody (sg : SgOracle) (fromEmail : String)
    (emailData : Option EmailData) (currentDate : String) : Except JsError EmailResult :=
  let validation := Validators.validateEmailRequest emailData
  if !validation.isValid then
    .error ⟨"Validation failed: " ++ String.intercalate (", ") validation.errors, none⟩
  else
    match emailData with
    | none =>
      .error ⟨"Cannot destructure property \x27email\x27 of \x27emailData\x27 as it is null.", none⟩
    | some e =>
      let normalizedLanguage := normalizeLanguage e.language
      match EmailTemplates.getTemplate e.subject (some normalizedLanguage) with
      | .nullResult =>
        .error ⟨"Template not found for status: " ++ jsStr e.subject ++
          " and language: " ++ normalizedLanguage, none⟩
      -- a truthy non-template has no `subject`, so `buildEmailSubject`
      -- raises a TypeError; both TypeErrors land in the catch clause
      | .hostValue _ => .error ⟨readReplaceOfUndefinedMsg, none⟩
      | .thrown => .error ⟨restrictedFunctionPropsMsg, none⟩
      | .found template =>
        let emailSubject := buildEmailSubject e.subject e.ticketId template e.assignedTo e.escalatedTo
        let emailBody := buildEmailBody template
          ⟨e.name, e.ticketId, e.issueTitle, e.assignedTo, e.escalatedTo, e.responseMessage⟩
          currentDate
        let msg : EmailMsg :=
          { toAddr := e.email, fromEmail := fromEmail, fromName := "CES Team",
            subject := emailSubject, text := emailBody.1, html := emailBody.2 }
        match sg msg with
        | .failure m b => .error ⟨m, b⟩
        | .success mid =>
          .ok { success := true, messageId := some mid, status := "sent",
                message := "Email sent successfully", error := none }

/-- `EmailService.sendIssueEmail(emailData)`: the whole body runs inside
`try`/`catch`; any thrown error is converted to a failed result whose
`error` field is `error.response?.body || error.message`. -/
def sendIssueEmail (sg : SgOracle) (fromEmail : String)
    (emailData : Option EmailData) (currentDate : String) : EmailResult :=
  match sendIssueEmailBody sg fromEmail emailData currentDate with
  | .ok r => r
  | .error err =>
    { success := false, messageId := none, status := "failed", message := err.message,
      error := some (orDefault err.responseBody err.message) }

/-- One entry of the `sendBulkEmails` result array. -/
structure BulkEmailEntry where
  email : Option String
  ticketId : Option String
  result : EmailResult
deriving DecidableEq, Repr

/-- `EmailService.sendBulkEmails(emailList)`: sequential per-item dispatch
through `sendIssueEmail`; reading `emailData.email` on a null element
throws before any dispatch of that element. -/
def sendBulkEmails (sg : SgOracle) (fromEmail : String) (currentDate : String) :
    List (Option EmailData) → Except String (List BulkEmailEntry)
  | [] => .ok []
  | none :: _ =>
    .error ("Cannot read properties of null (reading \x27email\x27)")
  | some e :: rest =>
    let r := sendIssueEmail sg fromEmail (some e) currentDate
    match sendBulkEmails sg fromEmail currentDate rest with
    | .error err => .error err
    | .ok rs => .ok ({ email := e.email, ticketId := e.ticketId, result := r } :: rs)

end EmailService

/-! ## Concrete instances used by witnesses and counterexamples -/

/-- A 100-character name (the longest `isValidName` accepts). -/
def name100 : String := String.mk (List.replicate 100 'a')

/-- A 50-character ticket id (the longest `isValidTicketId` accepts). -/
def tick50 : String := String.mk (List.replicate 50 'T')

/-- A 100-character escalation-target name. -/
def esc100 : String := String.mk (List.replicate 100 'b')

/-- A fully valid kinyarwanda `escalated` request whose rendered message is
long enough that its unicode (67 per segment) part count exceeds 5 while
its plain (153 per segment) part count does not. -/
def kinyaEscalatedRequest : SmsData :=
  { phoneNumber := some ("0788123456"), ticketId := some tick50, name := some name100,
    language := some ("kinyarwanda"), subject := some ("escalated"),
    assignedTo := none, escalatedTo := some esc100, issueTitle := none,
    responseMessage := none }

/-- A small fully valid `received` request. -/
def receivedRequest : SmsData :=
  { phoneNumber := some ("0788000001"), ticketId := some ("T1"), name := some ("Ann"),
    language := some ("english"), subject := some ("received"),
    assignedTo := none, escalatedTo := none, issueTitle := none,
    responseMessage := none }

/-- A request whose subject has no template. -/
def bogusSubjectRequest : SmsData :=
  { phoneNumber := some ("0788000002"), ticketId := some ("T2"), name := some ("Ben"),
    language := some ("english"), subject := some ("bogus"),
    assignedTo := none, escalatedTo := none, issueTitle := none,
    responseMessage := none }

/-- An `assigned` request carrying an escalation name but NO assignee. -/
def assignedNoAssignee : SmsData :=
  { phoneNumber := some ("0788123456"), ticketId := some ("T1"), name := some ("Ann"),
    language := some ("english"), subject := some ("assigned"),
    assignedTo := none, escalatedTo := some ("Bob"), issueTitle := none,
    responseMessage := none }

/-- An `assigned` request carrying neither an assignee nor an escalation
name. -/
def assignedNoBoth : SmsData :=
  { phoneNumber := some ("0788123456"), ticketId := some ("T1"), name := some ("Ann"),
    language := some ("english"), subject := some ("assigned"),
    assignedTo := none, escalatedTo := none, issueTitle := none,
    responseMessage := none }

/-- An `assigned` request carrying an assignee. -/
def assignedWithAssignee : SmsData :=
  { phoneNumber := some ("0788123456"), ticketId := some ("T1"), name := some ("Ann"),
    language := some ("english"), subject := some ("assigned"),
    assignedTo := some ("John"), escalatedTo := none, issueTitle := none,
    responseMessage := none }

/-- A trip request whose notification type normalizes to
`trip_remaining_time` but is not that exact string, with no
`remainingTime`. -/
def tripUpperType : TripData :=
  { email := some ("a@b.com"), phoneNumber := none, name := some ("Ann"),
    language := some ("english"), notificationType := some ("TRIP_REMAINING_TIME"),
    destinationName := some ("Kigali"), remainingTime := none, tripId := none }

/-- A trip request of the exact `trip_remaining_time` type carrying a valid
remaining time. -/
def tripWithRemaining : TripData :=
  { email := some ("a@b.com"), phoneNumber := none, name := some ("Ann"),
    language := some ("english"), notificationType := some ("trip_remaining_time"),
    destinationName := some ("Kigali"), remainingTime := some ("2 hours"), tripId := none }

/-- A trip request of the exact `trip_remaining_time` type with NO
remaining time. -/
def tripExactNoRemaining : TripData :=
  { email := some ("a@b.com"), phoneNumber := none, name := some ("Ann"),
    language := some ("english"), notificationType := some ("trip_remaining_time"),
    destinationName := some ("Kigali"), remainingTime := none, tripId := none }

/-- An axios oracle for which every transport call succeeds. -/
def axiosAllOk : SmsService.AxiosOracle := fun _ _ _ => .success

/-- The `TemplateInfo` of the `received`/`english` template rendered for
`receivedRequest`. -/
def receivedInfo : SmsTemplates.TemplateInfo :=
  { totalChars := 121, maxCharsPerPart := 153, parts := 1, isMultiPart := false,
    remainingChars := 32,
    message := "Hi Ann, your issue T1 has been received. We\x27ll review it soon. Track: https://ces-frontend-zeta.vercel.app/followup?id=T1" }

/-- The traceability projection of a bulk result entry. -/
def bulkProj (en : SmsService.BulkSmsEntry) : Option String × Option String × Bool :=
  (en.phoneNumber, en.ticketId, en.success)

/-- The projection of a group recipient to a successful outcome triple. -/
def recipProjTrue (r : SmsService.SmsRecipient) : Option String × Option String × Bool :=
  (r.phoneNumber, r.ticketId, true)

/-- The outcome a bulk request should receive when every transport call
succeeds: failure exactly when its template does not resolve. -/
def expectedOutcome (d : SmsData) : Option String × Option String × Bool :=
  (d.phoneNumber, d.ticketId,
    (SmsTemplates.getTemplate d.subject (some (normalizeLanguage d.language))).isFound)

/-- All recipients of a group list, projected to successful outcomes. -/
def flatRec (groups : List SmsService.SmsGroup) :
    List (Option String × Option String × Bool) :=
  groups.flatMap (fun g => g.recipients.map recipProjTrue)

/-- A string containing no opening brace (so placeholder patterns, which
all start with `{`, cannot match inside it). -/
@[reducible] def braceFree (s : String) : Prop := ('{') ∉ s.data

/-! ## Helper lemmas -/

/-- Ceiling division by a positive divisor, in the `(t + (m-1)) / m` form
used by `Math.ceil(t / m)` on naturals. -/
theorem ceil_div_spec (t m : Nat) (hm : 0 < m) :
    (t = 0 → (t + (m - 1)) / m = 0) ∧
    (0 < t → ((t + (m - 1)) / m - 1) * m < t ∧ t ≤ ((t + (m - 1)) / m) * m) := by
  constructor
  · intro ht
    subst ht
    simpa using Nat.div_eq_of_lt (by omega)
  · intro ht
    have h1 := Nat.div_add_mod (t + (m - 1)) m
    have h2 : (t + (m - 1)) % m < m := Nat.mod_lt _ hm
    have hmul : ((t + (m - 1)) / m - 1) * m = (t + (m - 1)) / m * m - m := by
      rw [Nat.sub_mul, Nat.one_mul]
    have hcomm : (t + (m - 1)) / m * m = m * ((t + (m - 1)) / m) := Nat.mul_comm _ _
    omega

/-- `normalizeLanguage` only ever produces the three canonical names. -/
theorem normalizeLanguage_mem (l : Option String) :
    normalizeLanguage l = "english" ∨ normalizeLanguage l = "french" ∨
      normalizeLanguage l = "kinyarwanda" := by
  match l with
  | none => exact Or.inl rfl
  | some s =>
    simp only [normalizeLanguage]
    split
    · exact Or.inr (Or.inl rfl)
    · split
      · exact Or.inr (Or.inr rfl)
      · exact Or.inl rfl

/-- For a canonical language name the SMS store lookup can only find an
own template or miss entirely: the prototype-chain arms need the language
to be `constructor`/`__proto__` and the `english` fallback is `undefined`
on both host objects. -/
theorem getTemplate_sms_canonical (status : Option String) (l : String)
    (hl : l = "english" ∨ l = "french" ∨ l = "kinyarwanda") :
    (∃ t, SmsTemplates.getTemplate status (some l) = TemplateResult.found t)
    ∨ SmsTemplates.getTemplate status (some l) = TemplateResult.nullResult := by
  cases hst : normKeyOpt status with
  | none => right; simp [SmsTemplates.getTemplate, hst]
  | some st =>
    cases hrow : SmsTemplates.templatesTable st with
    | undefinedProp => right; simp [SmsTemplates.getTemplate, hst, hrow]
    | own row =>
      left
      rcases hl with h | h | h <;> subst h
      · exact ⟨row.english, by
          have hlw : jsLower ("english") = "english" := by decide
          simp [SmsTemplates.getTemplate, hst, hrow, hlw, SmsTemplates.SmsLangRow.get]⟩
      · exact ⟨row.french, by
          have hlw : jsLower ("french") = "french" := by decide
          simp [SmsTemplates.getTemplate, hst, hrow, hlw, SmsTemplates.SmsLangRow.get]⟩
      · exact ⟨row.kinyarwanda, by
          have hlw : jsLower ("kinyarwanda") = "kinyarwanda" := by decide
          simp [SmsTemplates.getTemplate, hst, hrow, hlw, SmsTemplates.SmsLangRow.get]⟩
    | objectCtor =>
      right
      have hc1 : objectCtorGet ("english") = HostProp.undefinedProp := by decide
      have hc2 : objectCtorGet ("french") = HostProp.undefinedProp := by decide
      have hc3 : objectCtorGet ("kinyarwanda") = HostProp.undefinedProp := by decide
      rcases hl with h | h | h <;> subst h
      · have hlw : jsLower ("english") = "english" := by decide
        simp [SmsTemplates.getTemplate, hst, hrow, hlw, hc1]
      · have hlw : jsLower ("french") = "french" := by decide
        simp [SmsTemplates.getTemplate, hst, hrow, hlw, hc2]
      · have hlw : jsLower ("kinyarwanda") = "kinyarwanda" := by decide
        simp [SmsTemplates.getTemplate, hst, hrow, hlw, hc3]
    | objectProto =>
      right
      have hc1 : objectProtoGet ("english") = HostProp.undefinedProp := by decide
      have hc2 : objectProtoGet ("french") = HostProp.undefinedProp := by decide
      have hc3 : objectProtoGet ("kinyarwanda") = HostProp.undefinedProp := by decide
      rcases hl with h | h | h <;> subst h
      · have hlw : jsLower ("english") = "english" := by decide
        simp [SmsTemplates.getTemplate, hst, hrow, hlw, hc1]
      · have hlw : jsLower ("french") = "french" := by decide
        simp [SmsTemplates.getTemplate, hst, hrow, hlw, hc2]
      · have hlw : jsLower ("kinyarwanda") = "kinyarwanda" := by decide
        simp [SmsTemplates.getTemplate, hst, hrow, hlw, hc3]

/-! ## Claim theorems -/

/-- Claim C9 (evidence of the code bug): language normalization is total and
maps the two-letter codes, `kin` and the absent case as the claim states,
but the native French spelling `français` falls through to `english`,
because the switch case in the services contains the mojibake string
`fran√ßais`; the `isValidLanguage` validator accepts `français` as a
valid language, so the two disagree on exactly this input. -/
theorem normalizeLanguage_mojibake_eval :
    normalizeLanguage (some ("français")) = "english"
    ∧ Validators.isValidLanguage ("français") = true
    ∧ normalizeLanguage (some ("fran√ßais")) = "french"
    ∧ normalizeLanguage (some ("fr")) = "french"
    ∧ normalizeLanguage (some ("rw")) = "kinyarwanda"
    ∧ normalizeLanguage (some ("kin")) = "kinyarwanda"
    ∧ normalizeLanguage (some ("en")) = "english"
    ∧ normalizeLanguage (some (" FR ")) = "french"
    ∧ normalizeLanguage none = "english"
    ∧ ∀ l : Option String, normalizeLanguage l = "english" ∨
        normalizeLanguage l = "french" ∨ normalizeLanguage l = "kinyarwanda" := by
  refine ⟨by decide, by decide, by decide, by decide, by decide, by decide,
    by decide, by decide, rfl, ?_⟩
  intro l
  match l with
  | none => exact Or.inl rfl
  | some s =>
    simp only [normalizeLanguage]
    split
    · exact Or.inr (Or.inl rfl)
    · split
      · exact Or.inr (Or.inr rfl)
      · exact Or.inl rfl

/-- Claim C4 (amended): the measurement pipeline
(`determineMessageType` feeding `getMessageInfo`) uses
`maxPerSegment = 67` iff the rendered text contains any character outside
the 7-bit ASCII range (code point above 127 — not merely outside the
printable range) or the language is kinyarwanda, and 153 otherwise;
`segments = ceiling(totalChars / maxPerSegment)` and
`multiPart = (segments > 1)` for every `totalChars ≥ 0`. -/
theorem measure_segments_amended (message : String) (language : String) :
    ((SmsService.getMessageInfo message
        (SmsService.determineMessageType message language)).maxCharsPerPart
      = if (∃ c ∈ message.data, 127 < c.toNat) ∨ language = "kinyarwanda" then 67 else 153)
    ∧ (SmsService.getMessageInfo message
        (SmsService.determineMessageType message language)).totalChars = message.length
    ∧ (SmsService.getMessageInfo message
        (SmsService.determineMessageType message language)).parts
      = ((SmsService.getMessageInfo message
            (SmsService.determineMessageType message language)).totalChars
          + ((SmsService.getMessageInfo message
              (SmsService.determineMessageType message language)).maxCharsPerPart - 1))
        / (SmsService.getMessageInfo message
            (SmsService.determineMessageType message language)).maxCharsPerPart
    ∧ ((SmsService.getMessageInfo message
          (SmsService.determineMessageType message language)).isMultiPart = true
        ↔ 1 < (SmsService.getMessageInfo message
            (SmsService.determineMessageType message language)).parts)
    ∧ ((SmsService.getMessageInfo message
          (SmsService.determineMessageType message language)).totalChars = 0 →
        (SmsService.getMessageInfo message
          (SmsService.determineMessageType message language)).parts = 0)
    ∧ (0 < (SmsService.getMessageInfo message
          (SmsService.determineMessageType message language)).totalChars →
        ((SmsService.getMessageInfo message
            (SmsService.determineMessageType message language)).parts - 1)
          * (SmsService.getMessageInfo message
              (SmsService.determineMessageType message language)).maxCharsPerPart
          < (SmsService.getMessageInfo message
              (SmsService.determineMessageType message language)).totalChars
        ∧ (SmsService.getMessageInfo message
            (SmsService.determineMessageType message language)).totalChars
          ≤ (SmsService.getMessageInfo message
              (SmsService.determineMessageType message language)).parts
            * (SmsService.getMessageInfo message
                (SmsService.determineMessageType message language)).maxCharsPerPart) := by
  have hcond : (SmsService.determineMessageType message language = "unicode"
        ∧ ((∃ c ∈ message.data, 127 < c.toNat) ∨ language = "kinyarwanda"))
      ∨ (SmsService.determineMessageType message language = "plain"
        ∧ ¬((∃ c ∈ message.data, 127 < c.toNat) ∨ language = "kinyarwanda")) := by
    simp only [SmsService.determineMessageType]
    by_cases h : (language = "kinyarwanda" ||
        message.data.any (fun c => decide (127 < c.toNat))) = true
    · left
      refine ⟨by rw [if_pos h], ?_⟩
      rcases Bool.or_eq_true_iff.mp h with h' | h'
      · exact Or.inr (by simpa using h')
      · left
        rcases List.any_eq_true.mp h' with ⟨c, hc, hdc⟩
        exact ⟨c, hc, of_decide_eq_true hdc⟩
    · right
      refine ⟨by rw [if_neg h], ?_⟩
      intro hcontra
      apply h
      rcases hcontra with ⟨c, hc, hlt⟩ | hl
      · exact Bool.or_eq_true_iff.mpr (Or.inr (List.any_eq_true.mpr ⟨c, hc, decide_eq_true hlt⟩))
      · exact Bool.or_eq_true_iff.mpr (Or.inl (by simpa using hl))
  have hmax : (SmsService.getMessageInfo message
      (SmsService.determineMessageType message language)).maxCharsPerPart
      = if (∃ c ∈ message.data, 127 < c.toNat) ∨ language = "kinyarwanda" then 67 else 153 := by
    rcases hcond with ⟨hty, hc⟩ | ⟨hty, hc⟩
    · rw [hty, if_pos hc]; rfl
    · rw [hty, if_neg hc]
      simp [SmsService.getMessageInfo]
  have hmaxpos : 0 < (SmsService.getMessageInfo message
      (SmsService.determineMessageType message language)).maxCharsPerPart := by
    rw [hmax]; split <;> omega
  refine ⟨hmax, rfl, ?_, ?_, ?_, ?_⟩
  · simp [SmsService.getMessageInfo]
  · simp [SmsService.getMessageInfo]
  · intro h0
    have := (ceil_div_spec message.length
      (SmsService.getMessageInfo message
        (SmsService.determineMessageType message language)).maxCharsPerPart hmaxpos).1
    simp only [SmsService.getMessageInfo] at h0 ⊢
    exact this h0
  · intro h0
    have := (ceil_div_spec message.length
      (SmsService.getMessageInfo message
        (SmsService.determineMessageType message language)).maxCharsPerPart hmaxpos).2
    simp only [SmsService.getMessageInfo] at h0 ⊢
    exact this h0

set_option maxRecDepth 8000

/-- Witness for the amended theorem of C4 at a concrete input: a 200-character
plain English message splits into 2 segments of 153. -/
theorem measure_segments_amended_witness :
    0 < (SmsService.getMessageInfo (String.mk (List.replicate 200 'a'))
        (SmsService.determineMessageType (String.mk (List.replicate 200 'a')) "english")).totalChars
    ∧ ((SmsService.getMessageInfo (String.mk (List.replicate 200 'a'))
        (SmsService.determineMessageType (String.mk (List.replicate 200 'a')) "english")).parts - 1)
      * (SmsService.getMessageInfo (String.mk (List.replicate 200 'a'))
        (SmsService.determineMessageType (String.mk (List.replicate 200 'a')) "english")).maxCharsPerPart
      < (SmsService.getMessageInfo (String.mk (List.replicate 200 'a'))
        (SmsService.determineMessageType (String.mk (List.replicate 200 'a')) "english")).totalChars := by
  have h := measure_segments_amended (String.mk (List.replicate 200 'a')) "english"
  refine ⟨by decide, (h.2.2.2.2.2 (by decide)).1⟩

/-- Claim C4 (counterexample to the claim as stated): the newline character
is outside the 7-bit ASCII *printable* range, yet the code measures the
message `"\n"` with 153 characters per segment (the source tests
`[^\x00-\x7F]`, i.e. the full 7-bit range, not the printable range). -/
theorem measure_printable_counterexample :
    (SmsService.getMessageInfo ("\n") (SmsService.determineMessageType ("\n") "english")).maxCharsPerPart = 153
    ∧ (∃ c ∈ ("\n" : String).data, c.toNat < 32 ∨ 126 < c.toNat)
    ∧ (153 : Nat) ≠ 67 := by
  refine ⟨by decide, ⟨'\n', by decide, by decide⟩, by decide⟩

/-- Claim C3 (amended): for every event key that is an OWN key of the
template store (SMS or email) and every language code whose lower-cased
form is not an inherited `Object.prototype` member name (`constructor`,
`__proto__`), `getTemplate` returns a genuine template; and for any such
language whose lower-cased form is none of english/french/kinyarwanda
(including the absent case), it returns the english template of that event
key.  For the two inherited names the lookup instead leaks the truthy
inherited host value (see the counterexample), and `hasTemplate` is also
true on them although no template exists. -/
theorem getTemplate_fallback_law (status language : Option String) :
    (∀ st row, normKeyOpt status = some st →
        SmsTemplates.templatesTable st = JsProp.own row →
        language.map jsLower ≠ some ("constructor") →
        language.map jsLower ≠ some ("__proto__") →
        (SmsTemplates.getTemplate status language).isFound = true
        ∧ (language.map jsLower ≠ some ("english") →
           language.map jsLower ≠ some ("french") →
           language.map jsLower ≠ some ("kinyarwanda") →
           SmsTemplates.getTemplate status language
             = TemplateResult.found row.english))
    ∧ (∀ st row, normKeyOpt status = some st →
        EmailTemplates.templatesTable st = JsProp.own row →
        language.map jsLower ≠ some ("constructor") →
        language.map jsLower ≠ some ("__proto__") →
        (EmailTemplates.getTemplate status language).isFound = true
        ∧ (language.map jsLower ≠ some ("english") →
           language.map jsLower ≠ some ("french") →
           language.map jsLower ≠ some ("kinyarwanda") →
           EmailTemplates.getTemplate status language
             = TemplateResult.found row.english)) := by
  constructor
  · intro st row hst hrow h4 h5
    simp only [SmsTemplates.getTemplate, hst, hrow]
    cases hl : language.map jsLower with
    | none => exact ⟨rfl, fun _ _ _ => rfl⟩
    | some l =>
      rw [hl] at h4 h5
      have e4 : l ≠ "constructor" := fun h => h4 (by rw [h])
      have e5 : l ≠ "__proto__" := fun h => h5 (by rw [h])
      constructor
      · by_cases he1 : l = "english"
        · subst he1; simp [SmsTemplates.SmsLangRow.get, TemplateResult.isFound]
        · by_cases he2 : l = "french"
          · subst he2; simp [SmsTemplates.SmsLangRow.get, TemplateResult.isFound]
          · by_cases he3 : l = "kinyarwanda"
            · subst he3; simp [SmsTemplates.SmsLangRow.get, TemplateResult.isFound]
            · simp [SmsTemplates.SmsLangRow.get, he1, he2, he3, e4, e5,
                TemplateResult.isFound]
      · intro hh1 hh2 hh3
        have e1 : l ≠ "english" := fun h => hh1 (by rw [h])
        have e2 : l ≠ "french" := fun h => hh2 (by rw [h])
        have e3 : l ≠ "kinyarwanda" := fun h => hh3 (by rw [h])
        simp [SmsTemplates.SmsLangRow.get, e1, e2, e3, e4, e5]
  · intro st row hst hrow h4 h5
    simp only [EmailTemplates.getTemplate, hst, hrow]
    cases hl : language.map jsLower with
    | none => exact ⟨rfl, fun _ _ _ => rfl⟩
    | some l =>
      rw [hl] at h4 h5
      have e4 : l ≠ "constructor" := fun h => h4 (by rw [h])
      have e5 : l ≠ "__proto__" := fun h => h5 (by rw [h])
      constructor
      · by_cases he1 : l = "english"
        · subst he1; simp [EmailTemplates.EmailLangRow.get, TemplateResult.isFound]
        · by_cases he2 : l = "french"
          · subst he2; simp [EmailTemplates.EmailLangRow.get, TemplateResult.isFound]
          · by_cases he3 : l = "kinyarwanda"
            · subst he3; simp [EmailTemplates.EmailLangRow.get, TemplateResult.isFound]
            · simp [EmailTemplates.EmailLangRow.get, he1, he2, he3, e4, e5,
                TemplateResult.isFound]
      · intro hh1 hh2 hh3
        have e1 : l ≠ "english" := fun h => hh1 (by rw [h])
        have e2 : l ≠ "french" := fun h => hh2 (by rw [h])
        have e3 : l ≠ "kinyarwanda" := fun h => hh3 (by rw [h])
        simp [EmailTemplates.EmailLangRow.get, e1, e2, e3, e4, e5]

/-- Witness for C3 at a concrete input: the `received` key with the
unsupported language `swahili` resolves to the English template in both
stores. -/
theorem getTemplate_fallback_law_witness :
    SmsTemplates.getTemplate (some ("received")) (some ("swahili"))
      = TemplateResult.found SmsTemplates.smsReceivedRow.english
    ∧ (EmailTemplates.getTemplate (some ("received")) (some ("swahili"))).isFound
      = true := by
  have h := getTemplate_fallback_law (some ("received")) (some ("swahili"))
  exact ⟨(h.1 ("received") SmsTemplates.smsReceivedRow (by rfl) (by rfl)
      (by decide) (by decide)).2 (by decide) (by decide) (by decide),
    (h.2 ("received") EmailTemplates.emailReceivedRow (by rfl) (by rfl)
      (by decide) (by decide)).1⟩

/-- Claim C3 (counterexample to the claim as stated): JS bracket lookup
walks the prototype chain, so for the existing event key `received` and
the unrecognized language code `constructor`, the real `getTemplate`
returns the inherited truthy `Object` constructor
(`templates.received['constructor']`) — a non-null value that is NOT a
template and NOT the english template of the key; moreover
`hasTemplate('constructor')` is true (`templates['constructor']` is the
inherited constructor, truthy) although `getTemplate` with that key
returns null even for `english`. -/
theorem getTemplate_prototype_counterexample :
    SmsTemplates.getTemplate (some ("received")) (some ("constructor"))
      = TemplateResult.hostValue ("constructor")
    ∧ TemplateResult.hostValue ("constructor")
      ≠ TemplateResult.found SmsTemplates.smsReceivedRow.english
    ∧ SmsTemplates.hasTemplate (some ("constructor")) = true
    ∧ SmsTemplates.getTemplate (some ("constructor")) (some ("english"))
      = TemplateResult.nullResult
    ∧ EmailTemplates.getTemplate (some ("received")) (some ("constructor"))
      = TemplateResult.hostValue ("constructor")
    ∧ EmailTemplates.hasTemplate (some ("__proto__")) = true := by
  exact ⟨by rfl, by decide, by rfl, by rfl, by rfl, by rfl⟩

/-- Claim C5 (amended): when all field-level validations pass and the
template resolves, `validateSmsRequest` rejects exactly the messages whose
segment count computed with a FLAT 153-characters-per-segment limit
(`getTemplateInfo` hardcodes the plain-text limit; it does not apply the
67-character unicode rule of the constraint checker) exceeds 5. -/
theorem sms_length_validation_amended (s : SmsData) (currentDate : String)
    (info : SmsTemplates.TemplateInfo)
    (hpre : Validators.smsPreErrors s = [])
    (hinfo : SmsTemplates.getTemplateInfo s.subject s.language
      ⟨s.name, s.ticketId, s.issueTitle, s.assignedTo, s.escalatedTo, s.responseMessage⟩
      currentDate = .ok (some info)) :
    info.maxCharsPerPart = 153
    ∧ ((Validators.validateSmsRequest (some s) currentDate).isValid = true ↔
        info.parts ≤ 5) := by
  constructor
  · simp only [SmsTemplates.getTemplateInfo] at hinfo
    cases htpl : SmsTemplates.getTemplate s.subject s.language with
    | nullResult => rw [htpl] at hinfo; simp at hinfo
    | hostValue k => rw [htpl] at hinfo; simp at hinfo
    | thrown => rw [htpl] at hinfo; simp at hinfo
    | found template =>
      rw [htpl] at hinfo
      have h := Option.some.inj (Except.ok.inj hinfo)
      rw [← h]
  · simp only [Validators.validateSmsRequest, hpre, List.isEmpty_nil, if_true,
      SmsTemplates.validateTemplateLength, hinfo]
    by_cases h5 : 5 < info.parts
    · rw [if_pos h5]
      simp only [List.isEmpty_cons]
      constructor
      · intro h; cases h
      · intro h; omega
    · rw [if_neg h5]
      simp only [List.isEmpty_nil]
      constructor
      · intro _; omega
      · intro _; trivial

/-- Witness for the amended theorem of C5 at the concrete `receivedRequest`. -/
theorem sms_length_validation_amended_witness :
    receivedInfo.maxCharsPerPart = 153
    ∧ ((Validators.validateSmsRequest (some receivedRequest) "").isValid = true ↔
        receivedInfo.parts ≤ 5) :=
  sms_length_validation_amended receivedRequest ("") receivedInfo (by decide) (by rfl)

/-- Claim C5 (counterexample to the claim as stated): the fully valid
kinyarwanda `escalated` request renders to a 401-character message, so the
decision rule of the constraint checker (67 per segment for kinyarwanda) counts
6 segments — more than 5 — yet `validateSmsRequest` accepts it (it measures
401 characters against a flat 153 limit: 3 segments). -/
theorem sms_length_validation_counterexample :
    (Validators.validateSmsRequest (some kinyaEscalatedRequest) "").isValid = true
    ∧ (match SmsTemplates.getTemplateInfo kinyaEscalatedRequest.subject
        kinyaEscalatedRequest.language
        ⟨kinyaEscalatedRequest.name, kinyaEscalatedRequest.ticketId,
          kinyaEscalatedRequest.issueTitle, kinyaEscalatedRequest.assignedTo,
          kinyaEscalatedRequest.escalatedTo, kinyaEscalatedRequest.responseMessage⟩
        ("") with
        | .ok (some i) =>
          some ((SmsService.getMessageInfo i.message
            (SmsService.determineMessageType i.message
              (normalizeLanguage kinyaEscalatedRequest.language))).parts)
        | _ => none)
      = some 6
    ∧ ¬ ((6 : Nat) ≤ 5) := by
  refine ⟨by decide, by decide, by decide⟩

/-- The conditional role requirement fires with the `assignedTo` message
when the subject normalizes to `assigned` and BOTH role names are falsy. -/
theorem condRoleErrs_assigned (subject assignedTo escalatedTo : Option String)
    (hsub : normKeyOpt subject = some ("assigned"))
    (ha : truthy assignedTo = false) (he : truthy escalatedTo = false) :
    Validators.condRoleErrs subject assignedTo escalatedTo
      = ["assignedTo is required when subject is \"assigned\""] := by
  simp only [Validators.condRoleErrs, hsub, ha, he]
  decide

/-- The conditional role requirement fires with the `escalatedTo` message
when the subject normalizes to `escalated` and BOTH role names are falsy. -/
theorem condRoleErrs_escalated (subject assignedTo escalatedTo : Option String)
    (hsub : normKeyOpt subject = some ("escalated"))
    (ha : truthy assignedTo = false) (he : truthy escalatedTo = false) :
    Validators.condRoleErrs subject assignedTo escalatedTo
      = ["escalatedTo is required when subject is \"escalated\""] := by
  simp only [Validators.condRoleErrs, hsub, ha, he]
  decide

/-- Claim C7 (amended): for a request whose subject normalizes to
`assigned` (resp. `escalated`), validation fails with an error naming
`assignedTo` (resp. `escalatedTo`) whenever BOTH the assignee and the
escalation-target names are absent — supplying either role name disables
the check (the source guards on `!assignedTo && !escalatedTo`); supplying
the required name makes the request pass validation. -/
theorem conditional_role_requirement_amended :
    (∀ (s : SmsData) (currentDate : String),
        normKeyOpt s.subject = some ("assigned") →
        truthy s.assignedTo = false → truthy s.escalatedTo = false →
        "assignedTo is required when subject is \"assigned\"" ∈
          (Validators.validateSmsRequest (some s) currentDate).errors
        ∧ (Validators.validateSmsRequest (some s) currentDate).isValid = false)
    ∧ (∀ (s : SmsData) (currentDate : String),
        normKeyOpt s.subject = some ("escalated") →
        truthy s.assignedTo = false → truthy s.escalatedTo = false →
        "escalatedTo is required when subject is \"escalated\"" ∈
          (Validators.validateSmsRequest (some s) currentDate).errors
        ∧ (Validators.validateSmsRequest (some s) currentDate).isValid = false)
    ∧ (∀ e : EmailData,
        normKeyOpt e.subject = some ("assigned") →
        truthy e.assignedTo = false → truthy e.escalatedTo = false →
        "assignedTo is required when subject is \"assigned\"" ∈
          (Validators.validateEmailRequest (some e)).errors
        ∧ (Validators.validateEmailRequest (some e)).isValid = false)
    ∧ (∀ e : EmailData,
        normKeyOpt e.subject = some ("escalated") →
        truthy e.assignedTo = false → truthy e.escalatedTo = false →
        "escalatedTo is required when subject is \"escalated\"" ∈
          (Validators.validateEmailRequest (some e)).errors
        ∧ (Validators.validateEmailRequest (some e)).isValid = false)
    ∧ (Validators.validateSmsRequest (some assignedWithAssignee) "").isValid = true
    ∧ "assignedTo is required when subject is \"assigned\"" ∉
        (Validators.validateSmsRequest (some assignedWithAssignee) "").errors := by
  have smsCase : ∀ (s : SmsData) (currentDate : String) (msg : String),
      Validators.condRoleErrs s.subject s.assignedTo s.escalatedTo = [msg] →
      msg ∈ (Validators.validateSmsRequest (some s) currentDate).errors
      ∧ (Validators.validateSmsRequest (some s) currentDate).isValid = false := by
    intro s currentDate msg hc
    have hmem : msg ∈ Validators.smsPreErrors s := by
      simp only [Validators.smsPreErrors, hc, List.mem_append, List.mem_singleton]
      tauto
    have hemp : (Validators.smsPreErrors s).isEmpty = false := by
      cases hp : Validators.smsPreErrors s with
      | nil => rw [hp] at hmem; cases hmem
      | cons a l => rfl
    have hval : Validators.validateSmsRequest (some s) currentDate
        = { isValid := false, errors := Validators.smsPreErrors s } := by
      simp only [Validators.validateSmsRequest, hemp, Bool.false_eq_true, if_false]
    rw [hval]
    exact ⟨hmem, rfl⟩
  have emailCase : ∀ (e : EmailData) (msg : String),
      Validators.condRoleErrs e.subject e.assignedTo e.escalatedTo = [msg] →
      msg ∈ (Validators.validateEmailRequest (some e)).errors
      ∧ (Validators.validateEmailRequest (some e)).isValid = false := by
    intro e msg hc
    have hmem : msg ∈ Validators.emailPreErrors e := by
      simp only [Validators.emailPreErrors, hc, List.mem_append, List.mem_singleton]
      tauto
    have hemp : (Validators.emailPreErrors e).isEmpty = false := by
      cases hp : Validators.emailPreErrors e with
      | nil => rw [hp] at hmem; cases hmem
      | cons a l => rfl
    have hval : Validators.validateEmailRequest (some e)
        = { isValid := false, errors := Validators.emailPreErrors e } := by
      simp only [Validators.validateEmailRequest, hemp]
    rw [hval]
    exact ⟨hmem, rfl⟩
  refine ⟨?_, ?_, ?_, ?_, by decide, by decide⟩
  · intro s currentDate hsub ha he
    exact smsCase s currentDate _ (condRoleErrs_assigned s.subject s.assignedTo s.escalatedTo hsub ha he)
  · intro s currentDate hsub ha he
    exact smsCase s currentDate _ (condRoleErrs_escalated s.subject s.assignedTo s.escalatedTo hsub ha he)
  · intro e hsub ha he
    exact emailCase e _ (condRoleErrs_assigned e.subject e.assignedTo e.escalatedTo hsub ha he)
  · intro e hsub ha he
    exact emailCase e _ (condRoleErrs_escalated e.subject e.assignedTo e.escalatedTo hsub ha he)

/-- Witness for C7 at a concrete input: the `assigned` request with neither
role name fails with the `assignedTo` error. -/
theorem conditional_role_requirement_amended_witness :
    "assignedTo is required when subject is \"assigned\"" ∈
      (Validators.validateSmsRequest (some assignedNoBoth) "").errors
    ∧ (Validators.validateSmsRequest (some assignedNoBoth) "").isValid = false :=
  conditional_role_requirement_amended.1 assignedNoBoth ("") (by decide) (by decide) (by decide)

/-- Claim C7 (counterexample to the claim as stated): an `assigned` request
with NO assignee but an escalation name passes validation — the guard
requires both names to be missing, so validation does not fail "whenever no
assignee name is supplied". -/
theorem assigned_without_assignee_counterexample :
    (Validators.validateSmsRequest (some assignedNoAssignee) "").isValid = true
    ∧ assignedNoAssignee.assignedTo = none
    ∧ normKeyOpt assignedNoAssignee.subject = some ("assigned") := by
  refine ⟨by decide, rfl, by decide⟩

/-- Members of a `requiredErrs` list are the required-message or the
format-message. -/
theorem requiredErrs_mem {v : Option String} {r b x : String} {ok : String → Bool}
    (h : x ∈ Validators.requiredErrs v r ok b) : x = r ∨ x = b := by
  cases v with
  | none =>
    simp only [Validators.requiredErrs, List.mem_singleton] at h
    exact Or.inl h
  | some s =>
    simp only [Validators.requiredErrs] at h
    split at h
    · exact Or.inl (List.mem_singleton.mp h)
    · split at h
      · cases h
      · exact Or.inr (List.mem_singleton.mp h)

/-- Members of an `optContactErrs` list equal the format-message. -/
theorem optContactErrs_mem {v : Option String} {b x : String} {ok : String → Bool}
    (h : x ∈ Validators.optContactErrs v ok b) : x = b := by
  cases v with
  | none => cases h
  | some s =>
    simp only [Validators.optContactErrs] at h
    split at h
    · cases h
    · split at h
      · cases h
      · exact List.mem_singleton.mp h

/-- Members of an `optLenErrs` list equal the format-message. -/
theorem optLenErrs_mem {v : Option String} {m : Nat} {b x : String}
    (h : x ∈ Validators.optLenErrs v m b) : x = b := by
  cases v with
  | none => cases h
  | some s =>
    simp only [Validators.optLenErrs] at h
    split at h
    · cases h
    · split at h
      · exact List.mem_singleton.mp h
      · cases h

/-- Members of a `tripContactErrs` list equal the contact-required
message. -/
theorem tripContactErrs_mem {t : TripData} {x : String}
    (h : x ∈ Validators.tripContactErrs t) :
    x = "Either email or phoneNumber is required" := by
  simp only [Validators.tripContactErrs] at h
  split at h
  · exact List.mem_singleton.mp h
  · cases h

/-- Claim C8 (amended): `validateTripRequest` requires `remainingTime`
exactly when the RAW `notificationType` string is exactly
`trip_remaining_time` (the source compares with `===` before any
normalization): its absence then yields an error naming `remainingTime`,
and a request whose type is any other string — including casings or
separators that normalize to `trip_remaining_time`, and the
`trip_arrival_notice` variant — never receives that error; presence of a
valid remaining time (e.g. `2 hours`) passes validation. -/
theorem remainingTime_requirement_amended :
    (∀ t : TripData,
        t.notificationType = some ("trip_remaining_time") →
        truthy t.remainingTime = false →
        "remainingTime is required for trip_remaining_time notifications" ∈
          (Validators.validateTripRequest (some t)).errors
        ∧ (Validators.validateTripRequest (some t)).isValid = false)
    ∧ (∀ t : TripData,
        t.notificationType ≠ some ("trip_remaining_time") →
        Validators.tripRemainingErrs t = []
        ∧ "remainingTime is required for trip_remaining_time notifications" ∉
            (Validators.validateTripRequest (some t)).errors)
    ∧ (Validators.validateTripRequest (some tripWithRemaining)).isValid = true := by
  refine ⟨?_, ?_, by decide⟩
  · intro t hnt ha
    have hre : Validators.tripRemainingErrs t
        = ["remainingTime is required for trip_remaining_time notifications"] := by
      simp only [Validators.tripRemainingErrs, hnt, if_pos]
      cases hr : t.remainingTime with
      | none => rfl
      | some s =>
        rw [hr] at ha
        simp only [truthy, Bool.not_eq_false] at ha
        have hs : s = "" := by simpa using ha
        simp [hs]
    have hmem : "remainingTime is required for trip_remaining_time notifications"
        ∈ Validators.tripPreErrors t := by
      simp only [Validators.tripPreErrors, hre, List.mem_append, List.mem_singleton]
      tauto
    have hemp : (Validators.tripPreErrors t).isEmpty = false := by
      cases hp : Validators.tripPreErrors t with
      | nil => rw [hp] at hmem; cases hmem
      | cons a l => rfl
    refine ⟨hmem, ?_⟩
    simp only [Validators.validateTripRequest]
    exact hemp
  · intro t hnt
    have hre : Validators.tripRemainingErrs t = [] := by
      simp only [Validators.tripRemainingErrs, if_neg hnt]
    refine ⟨hre, ?_⟩
    intro hmem
    simp only [Validators.validateTripRequest] at hmem
    simp only [Validators.tripPreErrors, hre, List.append_nil, List.mem_append] at hmem
    rcases hmem with ((((((h | h) | h) | h) | h) | h) | h) | h
    · exact absurd (tripContactErrs_mem h) (by decide)
    · exact absurd (optContactErrs_mem h) (by decide)
    · exact absurd (optContactErrs_mem h) (by decide)
    · rcases requiredErrs_mem h with h' | h' <;> exact absurd h' (by decide)
    · rcases requiredErrs_mem h with h' | h' <;> exact absurd h' (by decide)
    · rcases requiredErrs_mem h with h' | h' <;> exact absurd h' (by decide)
    · rcases requiredErrs_mem h with h' | h' <;> exact absurd h' (by decide)
    · exact absurd (optLenErrs_mem h) (by decide)

/-- Witness for C8 at a concrete input: a request of the exact
`trip_remaining_time` type with no `remainingTime` fails with the
`remainingTime` error, and the `trip_arrival_notice` variant never receives
it. -/
theorem remainingTime_requirement_amended_witness :
    ("remainingTime is required for trip_remaining_time notifications" ∈
        (Validators.validateTripRequest (some tripExactNoRemaining)).errors
      ∧ (Validators.validateTripRequest (some tripExactNoRemaining)).isValid = false)
    ∧ Validators.tripRemainingErrs
        { email := some ("a@b.com"), phoneNumber := none, name := some ("Ann"),
          language := some ("english"), notificationType := some ("trip_arrival_notice"),
          destinationName := some ("Kigali"), remainingTime := none, tripId := none } = [] :=
  ⟨remainingTime_requirement_amended.1 tripExactNoRemaining (by decide) (by decide),
   (remainingTime_requirement_amended.2.1 _ (by decide)).1⟩

/-- Claim C8 (counterexample to the claim as stated): the notification type
`TRIP_REMAINING_TIME` normalizes to `trip_remaining_time` (and is accepted
by `isValidTripNotificationType`), yet a request with that type and NO
`remainingTime` passes validation — the requirement is keyed on the raw
string, not the normalized one. -/
theorem remainingTime_normalized_type_counterexample :
    (Validators.validateTripRequest (some tripUpperType)).isValid = true
    ∧ tripUpperType.remainingTime = none
    ∧ normKeyOpt tripUpperType.notificationType = some ("trip_remaining_time")
    ∧ Validators.isValidTripNotificationType ("TRIP_REMAINING_TIME") = true := by
  refine ⟨by decide, rfl, by decide, by decide⟩

/-- Dropping an empty-guarded branch: the per-item error list is pushed
unchanged, because a valid item has no errors. -/
theorem isEmpty_map_collapse (l : List String) (f : String → String) :
    (if l.isEmpty then [] else l.map f) = l.map f := by
  cases l <;> rfl

/-- `validateEmailRequest` reports valid exactly when it collected no
errors. -/
theorem validateEmailRequest_isValid_eq (d : Option EmailData) :
    (Validators.validateEmailRequest d).isValid
      = (Validators.validateEmailRequest d).errors.isEmpty := by
  cases d <;> rfl

/-- `validateSmsRequest` reports valid exactly when it collected no
errors. -/
theorem validateSmsRequest_isValid_eq (d : Option SmsData) (currentDate : String) :
    (Validators.validateSmsRequest d currentDate).isValid
      = (Validators.validateSmsRequest d currentDate).errors.isEmpty := by
  cases d <;> rfl

/-- `validateTripRequest` reports valid exactly when it collected no
errors. -/
theorem validateTripRequest_isValid_eq (d : Option TripData) :
    (Validators.validateTripRequest d).isValid
      = (Validators.validateTripRequest d).errors.isEmpty := by
  cases d <;> rfl

/-- In the bulk aggregation, the `if valid then skip` guard can be dropped:
a valid item contributes no errors either way. -/
theorem flatMap_if_collapse {α : Type} (validate : α → Validators.ValidationResult)
    (g : Nat → String → String)
    (hitem : ∀ x, (validate x).isValid = (validate x).errors.isEmpty)
    (l : List (Nat × α)) :
    (l.flatMap (fun p => if (validate p.2).isValid then []
        else (validate p.2).errors.map (g p.1)))
      = l.flatMap (fun p => (validate p.2).errors.map (g p.1)) := by
  induction l with
  | nil => rfl
  | cons p t ih =>
    simp only [List.flatMap_cons, ih]
    congr 1
    rw [hitem]
    exact isEmpty_map_collapse _ _

/-- `withIdx` indexes the list without changing its elements. -/
theorem withIdx_map_snd {α : Type} (n : Nat) (xs : List α) :
    (Validators.withIdx n xs).map Prod.snd = xs := by
  induction xs generalizing n with
  | nil => rfl
  | cons x t ih => simp [Validators.withIdx, ih]

/-- The aggregated bulk error list is empty exactly when every item
validates. -/
theorem flatMap_isValid_iff {α : Type} (validate : α → Validators.ValidationResult)
    (g : Nat → String → String)
    (hitem : ∀ x, (validate x).isValid = (validate x).errors.isEmpty)
    (n : Nat) (xs : List α) :
    ((Validators.withIdx n xs).flatMap
        (fun p => (validate p.2).errors.map (g p.1)) = []
      ↔ ∀ x ∈ xs, (validate x).isValid = true) := by
  induction xs generalizing n with
  | nil => simp [Validators.withIdx]
  | cons x t ih =>
    simp only [Validators.withIdx, List.flatMap_cons, List.append_eq_nil,
      List.map_eq_nil_iff, List.forall_mem_cons, ih]
    constructor
    · intro h
      refine ⟨?_, h.2⟩
      rw [hitem, List.isEmpty_iff]
      exact h.1
    · intro h
      refine ⟨?_, h.2⟩
      rw [← List.isEmpty_iff, ← hitem]
      exact h.1

/-- Claim C10 (confirmed): each bulk validator rejects a non-array input,
an empty list, and a list over its cap (50 emails, 30 SMS, 20 trips); on an
in-range list it aggregates exactly the individual validation errors of
each item, prefixed with the 1-based item index, and accepts exactly when
every item validates. -/
theorem bulk_validators_caps_and_aggregation :
    ((Validators.validateBulkEmailRequest .notArray).isValid = false
      ∧ (Validators.validateBulkEmailRequest (.array [])).isValid = false
      ∧ (∀ xs : List (Option EmailData), 50 < xs.length →
          Validators.validateBulkEmailRequest (.array xs)
            = { isValid := false, errors := ["maximum 50 emails allowed per batch"] })
      ∧ (∀ xs : List (Option EmailData), xs ≠ [] → xs.length ≤ 50 →
          (Validators.validateBulkEmailRequest (.array xs)).errors
            = (Validators.withIdx 0 xs).flatMap (fun p =>
                (Validators.validateEmailRequest p.2).errors.map
                  (fun e => "Email " ++ toString (p.1 + 1) ++ ": " ++ e))
          ∧ ((Validators.validateBulkEmailRequest (.array xs)).isValid = true ↔
              ∀ x ∈ xs, (Validators.validateEmailRequest x).isValid = true)))
    ∧ (∀ currentDate : String,
        (Validators.validateBulkSmsRequest .notArray currentDate).isValid = false
        ∧ (Validators.validateBulkSmsRequest (.array []) currentDate).isValid = false
        ∧ (∀ xs : List (Option SmsData), 30 < xs.length →
            Validators.validateBulkSmsRequest (.array xs) currentDate
              = { isValid := false, errors := ["maximum 30 SMS messages allowed per batch"] })
        ∧ (∀ xs : List (Option SmsData), xs ≠ [] → xs.length ≤ 30 →
            (Validators.validateBulkSmsRequest (.array xs) currentDate).errors
              = (Validators.withIdx 0 xs).flatMap (fun p =>
                  (Validators.validateSmsRequest p.2 currentDate).errors.map
                    (fun e => "SMS " ++ toString (p.1 + 1) ++ ": " ++ e))
            ∧ ((Validators.validateBulkSmsRequest (.array xs) currentDate).isValid = true ↔
                ∀ x ∈ xs, (Validators.validateSmsRequest x currentDate).isValid = true)))
    ∧ ((Validators.validateBulkTripRequest .notArray).isValid = false
      ∧ (Validators.validateBulkTripRequest (.array [])).isValid = false
      ∧ (∀ xs : List (Option TripData), 20 < xs.length →
          Validators.validateBulkTripRequest (.array xs)
            = { isValid := false, errors := ["maximum 20 trip notifications allowed per batch"] })
      ∧ (∀ xs : List (Option TripData), xs ≠ [] → xs.length ≤ 20 →
          (Validators.validateBulkTripRequest (.array xs)).errors
            = (Validators.withIdx 0 xs).flatMap (fun p =>
                (Validators.validateTripRequest p.2).errors.map
                  (fun e => "Trip " ++ toString (p.1 + 1) ++ ": " ++ e))
          ∧ ((Validators.validateBulkTripRequest (.array xs)).isValid = true ↔
              ∀ x ∈ xs, (Validators.validateTripRequest x).isValid = true))) := by
  refine ⟨⟨rfl, rfl, ?_, ?_⟩, fun currentDate => ⟨rfl, rfl, ?_, ?_⟩, ⟨rfl, rfl, ?_, ?_⟩⟩
  · intro xs hcap
    have h0 : ¬(xs.length = 0) := by omega
    have hc : (decide (50 < xs.length)) = true := decide_eq_true hcap
    simp only [Validators.validateBulkEmailRequest, if_neg h0, hc, if_true]
  · intro xs hne hlen
    have h0 : ¬(xs.length = 0) := fun h => hne (List.length_eq_zero.mp h)
    have hc : (decide (50 < xs.length)) = false := decide_eq_false (by omega)
    simp only [Validators.validateBulkEmailRequest, if_neg h0, hc, Bool.false_eq_true, if_false]
    have hcol := flatMap_if_collapse (fun d => Validators.validateEmailRequest d)
      (fun i e => "Email " ++ toString (i + 1) ++ ": " ++ e)
      (fun d => validateEmailRequest_isValid_eq d) (Validators.withIdx 0 xs)
    refine ⟨hcol, ?_⟩
    rw [hcol, List.isEmpty_iff]
    exact flatMap_isValid_iff (fun d => Validators.validateEmailRequest d)
      (fun i e => "Email " ++ toString (i + 1) ++ ": " ++ e)
      (fun d => validateEmailRequest_isValid_eq d) 0 xs
  · intro xs hcap
    have h0 : ¬(xs.length = 0) := by omega
    have hc : (decide (30 < xs.length)) = true := decide_eq_true hcap
    simp only [Validators.validateBulkSmsRequest, if_neg h0, hc, if_true]
  · intro xs hne hlen
    have h0 : ¬(xs.length = 0) := fun h => hne (List.length_eq_zero.mp h)
    have hc : (decide (30 < xs.length)) = false := decide_eq_false (by omega)
    simp only [Validators.validateBulkSmsRequest, if_neg h0, hc, Bool.false_eq_true, if_false]
    have hcol := flatMap_if_collapse (fun d => Validators.validateSmsRequest d currentDate)
      (fun i e => "SMS " ++ toString (i + 1) ++ ": " ++ e)
      (fun d => validateSmsRequest_isValid_eq d currentDate) (Validators.withIdx 0 xs)
    refine ⟨hcol, ?_⟩
    rw [hcol, List.isEmpty_iff]
    exact flatMap_isValid_iff (fun d => Validators.validateSmsRequest d currentDate)
      (fun i e => "SMS " ++ toString (i + 1) ++ ": " ++ e)
      (fun d => validateSmsRequest_isValid_eq d currentDate) 0 xs
  · intro xs hcap
    have h0 : ¬(xs.length = 0) := by omega
    have hc : (decide (20 < xs.length)) = true := decide_eq_true hcap
    simp only [Validators.validateBulkTripRequest, if_neg h0, hc, if_true]
  · intro xs hne hlen
    have h0 : ¬(xs.length = 0) := fun h => hne (List.length_eq_zero.mp h)
    have hc : (decide (20 < xs.length)) = false := decide_eq_false (by omega)
    simp only [Validators.validateBulkTripRequest, if_neg h0, hc, Bool.false_eq_true, if_false]
    have hcol := flatMap_if_collapse (fun d => Validators.validateTripRequest d)
      (fun i e => "Trip " ++ toString (i + 1) ++ ": " ++ e)
      (fun d => validateTripRequest_isValid_eq d) (Validators.withIdx 0 xs)
    refine ⟨hcol, ?_⟩
    rw [hcol, List.isEmpty_iff]
    exact flatMap_isValid_iff (fun d => Validators.validateTripRequest d)
      (fun i e => "Trip " ++ toString (i + 1) ++ ": " ++ e)
      (fun d => validateTripRequest_isValid_eq d) 0 xs

/-- Witness for C10 at concrete inputs: a 31-element SMS batch is rejected
by the cap, and a singleton batch of one invalid (null) item aggregates
the error of that item with the `SMS 1:` prefix. -/
theorem bulk_validators_caps_and_aggregation_witness :
    Validators.validateBulkSmsRequest (.array (List.replicate 31 (none : Option SmsData))) ""
      = { isValid := false, errors := ["maximum 30 SMS messages allowed per batch"] }
    ∧ (Validators.validateBulkSmsRequest (.array [(none : Option SmsData)]) "").errors
      = ["SMS 1: SMS data is required"] := by
  constructor
  · exact (bulk_validators_caps_and_aggregation.2.1 ("")).2.2.1 _ (by simp)
  · have h := ((bulk_validators_caps_and_aggregation.2.1 ("")).2.2.2 [none]
      (by simp) (by simp)).1
    rw [h]
    rfl

/-- A list is a Boolean prefix of itself followed by anything. -/
theorem isPrefixOf_append_self (l t : List Char) : l.isPrefixOf (l ++ t) = true := by
  induction l with
  | nil => simp [List.isPrefixOf]
  | cons c l ih => simp [List.isPrefixOf, ih]

/-- The skip counter of `replAllGo` just drops that many characters. -/
theorem replAllGo_skip (pat rep : List Char) (k : Nat) (s : List Char) :
    replAllGo pat rep k s = replAllGo pat rep 0 (s.drop k) := by
  induction k generalizing s with
  | zero => rw [List.drop_zero]
  | succ k ih =>
    cases s with
    | nil => rfl
    | cons c rest =>
      rw [List.drop_succ_cons]
      exact ih rest

/-- Scanning for a `{`-headed pattern walks over a brace-free prefix
unchanged. -/
theorem replAllGo_append_free (p' rep : List Char) (a s : List Char)
    (ha : ('{') ∉ a) :
    replAllGo ('{' :: p') rep 0 (a ++ s) = a ++ replAllGo ('{' :: p') rep 0 s := by
  induction a with
  | nil => rfl
  | cons c a ih =>
    have hc : c ≠ '{' := fun h => ha (by rw [h]; exact List.mem_cons_self ..)
    have hpre : (('{' :: p').isPrefixOf (c :: (a ++ s))) = false := by
      simp only [List.isPrefixOf, Bool.and_eq_false_iff]
      left
      exact beq_eq_false_iff_ne.mpr (fun h => hc h.symm)
    rw [List.cons_append]
    simp only [replAllGo, hpre, Bool.false_eq_true, if_false]
    rw [ih (fun h => ha (List.mem_cons_of_mem c h))]
    simp

/-- Scanning at an occurrence of the pattern replaces it and resumes after
it. -/
theorem replAllGo_match (p' rep : List Char) (s : List Char) :
    replAllGo ('{' :: p') rep 0 (('{' :: p') ++ s) = rep ++ replAllGo ('{' :: p') rep 0 s := by
  rw [List.cons_append]
  have hpre : (('{' :: p').isPrefixOf ('{' :: (p' ++ s))) = true := by
    have h := isPrefixOf_append_self ('{' :: p') s
    simp only [List.cons_append] at h
    exact h
  simp only [replAllGo, hpre, if_true]
  rw [replAllGo_skip]
  simp [List.drop_left]

/-- A brace-free string is left unchanged by a `{`-headed global
replacement. -/
theorem replAllGo_no_brace (p' rep : List Char) (s : List Char) (hs : ('{') ∉ s) :
    replAllGo ('{' :: p') rep 0 s = s := by
  have h := replAllGo_append_free p' rep s [] hs
  simpa [replAllGo] using h

/-- Global replacement of a pattern occurring exactly at the two designated
positions of a skeleton with brace-free segments. -/
theorem replAll_two_list (p' rep a b c : List Char)
    (ha : ('{') ∉ a) (hb : ('{') ∉ b) (hc : ('{') ∉ c) :
    replAllGo ('{' :: p') rep 0 (a ++ ('{' :: p') ++ b ++ ('{' :: p') ++ c)
      = a ++ rep ++ b ++ rep ++ c := by
  have h1 : a ++ ('{' :: p') ++ b ++ ('{' :: p') ++ c
      = a ++ (('{' :: p') ++ (b ++ (('{' :: p') ++ c))) := by
    simp [List.append_assoc]
  rw [h1, replAllGo_append_free p' rep a _ ha, replAllGo_match,
    replAllGo_append_free p' rep b _ hb, replAllGo_match,
    replAllGo_no_brace p' rep c hc]
  simp [List.append_assoc]

/-- First-occurrence replacement walks over a brace-free prefix
unchanged. -/
theorem replFirst_append_free (p' rep : List Char) (a s : List Char)
    (ha : ('{') ∉ a) :
    replFirstList ('{' :: p') rep (a ++ s) = a ++ replFirstList ('{' :: p') rep s := by
  induction a with
  | nil => rfl
  | cons c a ih =>
    have hc : c ≠ '{' := fun h => ha (by rw [h]; exact List.mem_cons_self ..)
    have hpre : (('{' :: p').isPrefixOf (c :: (a ++ s))) = false := by
      simp only [List.isPrefixOf, Bool.and_eq_false_iff]
      left
      exact beq_eq_false_iff_ne.mpr (fun h => hc h.symm)
    rw [List.cons_append]
    simp only [replFirstList, hpre, Bool.false_eq_true, if_false, reduceCtorEq]
    rw [ih (fun h => ha (List.mem_cons_of_mem c h))]
    simp

/-- First-occurrence replacement at an occurrence replaces it and stops. -/
theorem replFirst_match (p' rep : List Char) (s : List Char) :
    replFirstList ('{' :: p') rep (('{' :: p') ++ s) = rep ++ s := by
  rw [List.cons_append]
  have hpre : (('{' :: p').isPrefixOf ('{' :: (p' ++ s))) = true := by
    have h := isPrefixOf_append_self ('{' :: p') s
    simp only [List.cons_append] at h
    exact h
  simp only [replFirstList, hpre, if_true, reduceCtorEq]
  simp [List.drop_left]

/-- Brace-freeness distributes over string append. -/
theorem braceFree_append (s t : String) (hs : braceFree s) (ht : braceFree t) :
    braceFree (s ++ t) := by
  simp only [braceFree, String.data_append, List.mem_append]
  rintro (h | h)
  · exact hs h
  · exact ht h

/-- String-level two-occurrence global replacement. -/
theorem jsReplaceAll_two (pat rep a b c : String) (p' : List Char)
    (hpat : pat.data = '{' :: p')
    (ha : braceFree a) (hb : braceFree b) (hc : braceFree c) :
    jsReplaceAll (a ++ pat ++ b ++ pat ++ c) pat rep = a ++ rep ++ b ++ rep ++ c := by
  apply String.ext
  simp only [jsReplaceAll, replAllList, String.data_append, hpat]
  exact replAll_two_list p' rep.data a.data b.data c.data ha hb hc

/-- String-level identity of global replacement on a brace-free string. -/
theorem jsReplaceAll_braceFree_id (s pat rep : String) (p' : List Char)
    (hpat : pat.data = '{' :: p') (hs : braceFree s) :
    jsReplaceAll s pat rep = s := by
  apply String.ext
  simp only [jsReplaceAll, replAllList, hpat]
  exact replAllGo_no_brace p' rep.data s.data hs

/-- String-level first-occurrence replacement. -/
theorem jsReplaceFirst_first (pat rep a rest : String) (p' : List Char)
    (hpat : pat.data = '{' :: p') (ha : braceFree a) :
    jsReplaceFirst (a ++ pat ++ rest) pat rep = a ++ rep ++ rest := by
  apply String.ext
  simp only [jsReplaceFirst, String.data_append, hpat]
  rw [List.append_assoc]
  rw [replFirst_append_free p' rep.data a.data _ ha, replFirst_match]
  simp [List.append_assoc]

/-- The text component of the pairwise replacement fold of `buildEmailBody` is
the plain fold over the text body alone. -/
theorem foldl_pair_fst (l : List (String × String)) (x y : String) :
    (l.foldl (fun bodies pv =>
        (jsReplaceAll bodies.1 pv.1 pv.2, jsReplaceAll bodies.2 pv.1 pv.2)) (x, y)).1
      = l.foldl (fun m pv => jsReplaceAll m pv.1 pv.2) x := by
  induction l generalizing x y with
  | nil => rfl
  | cons p t ih => exact ih _ _

/-- The placeholder fold of the renderers on a skeleton containing `{name}` twice
between brace-free segments, with a brace-free substitution value: both
occurrences are replaced and every later placeholder pass leaves the
brace-free result unchanged. -/
theorem renderFold_two_name (a b c v date d2 d3 d4 d5 d6 : String)
    (ha : braceFree a) (hb : braceFree b) (hc : braceFree c) (hv : braceFree v) :
    List.foldl (fun m pv => jsReplaceAll m pv.1 pv.2)
      (a ++ "{name}" ++ b ++ "{name}" ++ c)
      [("{name}", v), ("{ticketId}", d2), ("{issueTitle}", d3), ("{assignedTo}", d4),
        ("{escalatedTo}", d5), ("{responseMessage}", d6), ("{currentDate}", date)]
      = a ++ v ++ b ++ v ++ c := by
  have hres : braceFree (a ++ v ++ b ++ v ++ c) :=
    braceFree_append _ _ (braceFree_append _ _
      (braceFree_append _ _ (braceFree_append _ _ ha hv) hb) hv) hc
  simp only [List.foldl]
  rw [jsReplaceAll_two ("{name}") v a b c (("name\x7d" : String).data) (by decide) ha hb hc,
    jsReplaceAll_braceFree_id _ ("{ticketId}") d2 (("ticketId\x7d" : String).data) (by decide) hres,
    jsReplaceAll_braceFree_id _ ("{issueTitle}") d3 (("issueTitle\x7d" : String).data) (by decide) hres,
    jsReplaceAll_braceFree_id _ ("{assignedTo}") d4 (("assignedTo\x7d" : String).data) (by decide) hres,
    jsReplaceAll_braceFree_id _ ("{escalatedTo}") d5 (("escalatedTo\x7d" : String).data) (by decide) hres,
    jsReplaceAll_braceFree_id _ ("{responseMessage}") d6 (("responseMessage\x7d" : String).data) (by decide) hres,
    jsReplaceAll_braceFree_id _ ("{currentDate}") date (("currentDate\x7d" : String).data) (by decide) hres]

/-- Claim C6 (amended): SMS-message and email-body rendering substitute
placeholders GLOBALLY — on a skeleton containing a placeholder twice
(between brace-free segments, with a brace-free nonempty value) both
occurrences are replaced — while email SUBJECT rendering replaces only the
FIRST occurrence of each applicable placeholder, leaving the remainder of
the skeleton untouched. -/
theorem substitution_global_amended :
    (∀ a b c v date : String, braceFree a → braceFree b → braceFree c →
        braceFree v → v ≠ "" →
        SmsService.buildSmsMessage { message := a ++ "{name}" ++ b ++ "{name}" ++ c }
          ⟨some v, none, none, none, none, none⟩ date = a ++ v ++ b ++ v ++ c)
    ∧ (∀ a b c v date : String, braceFree a → braceFree b → braceFree c →
        braceFree v → v ≠ "" →
        (EmailService.buildEmailBody
          { subject := "", body := a ++ "{name}" ++ b ++ "{name}" ++ c, htmlBody := some ("x") }
          ⟨some v, none, none, none, none, none⟩ date).1 = a ++ v ++ b ++ v ++ c)
    ∧ (∀ a rest tid : String, braceFree a →
        EmailService.buildEmailSubject (some ("received")) (some tid)
          { subject := a ++ "{ticketId}" ++ rest, body := "", htmlBody := none }
          none none = a ++ tid ++ rest) := by
  refine ⟨?_, ?_, ?_⟩
  · intro a b c v date ha hb hc hv hne
    have hdef : orDefault (some v) ("Customer") = v := by
      simp [orDefault, hne]
    simp only [SmsService.buildSmsMessage]
    rw [hdef]
    exact renderFold_two_name a b c v date _ _ _ _ _ ha hb hc hv
  · intro a b c v date ha hb hc hv hne
    have hdef : orDefault (some v) ("Valued Customer") = v := by
      simp [orDefault, hne]
    simp only [EmailService.buildEmailBody]
    rw [hdef, foldl_pair_fst]
    exact renderFold_two_name a b c v date _ _ _ _ _ ha hb hc hv
  · intro a rest tid ha
    simp only [EmailService.buildEmailSubject, truthy, Bool.false_and, Bool.false_eq_true,
      if_false, jsStr]
    exact jsReplaceFirst_first ("{ticketId}") tid a rest (("ticketId\x7d" : String).data)
      (by decide) ha

/-- Witness for C6 at concrete inputs: global substitution replaces both
`{name}` occurrences in an SMS skeleton; subject substitution replaces the
single `{ticketId}` occurrence of a one-occurrence subject skeleton. -/
theorem substitution_global_amended_witness :
    SmsService.buildSmsMessage
      { message := "Hi " ++ "{name}" ++ ", bye " ++ "{name}" ++ "." }
      ⟨some ("Ann"), none, none, none, none, none⟩ ""
      = "Hi " ++ "Ann" ++ ", bye " ++ "Ann" ++ "."
    ∧ EmailService.buildEmailSubject (some ("received")) (some ("T9"))
      { subject := "Issue " ++ "{ticketId}" ++ " Received", body := "", htmlBody := none }
      none none = "Issue " ++ "T9" ++ " Received" :=
  ⟨substitution_global_amended.1 ("Hi ") (", bye ") (".") ("Ann") ("")
      (by decide) (by decide) (by decide) (by decide) (by decide),
   substitution_global_amended.2.2 ("Issue ") (" Received") ("T9") (by decide)⟩

/-- Claim C6 (counterexample to the claim as stated): on a subject skeleton
containing `{ticketId}` twice, `buildEmailSubject` replaces only the first
occurrence — the second survives — whereas a global replacement would have
replaced both. -/
theorem subject_substitution_counterexample :
    EmailService.buildEmailSubject (some ("received")) (some ("T1"))
      { subject := "{ticketId} {ticketId}", body := "", htmlBody := none } none none
      = "T1 {ticketId}"
    ∧ ("T1 {ticketId}" : String) ≠ "T1 T1"
    ∧ jsReplaceAll ("{ticketId} {ticketId}") ("{ticketId}") ("T1") = "T1 T1" := by
  refine ⟨by decide, by decide, by decide⟩

/-- Every successful exit of the try-block of `sendIssueSms` carries the success
flag and the `sent` status. -/
theorem sendIssueSmsBody_ok (axios : SmsService.AxiosOracle) (d : Option SmsData)
    (date : String) (r : SmsService.SendResult)
    (h : SmsService.sendIssueSmsBody axios d date = .ok r) :
    r.success = true ∧ r.status = "sent" := by
  simp only [SmsService.sendIssueSmsBody] at h
  split at h
  · simp at h
  · split at h
    · simp at h
    · split at h
      · simp at h
      · simp at h
      · simp at h
      · split at h
        · simp at h
        · cases Except.ok.inj h
          exact ⟨rfl, rfl⟩

/-- Every successful exit of the try-block of `sendIssueEmail` carries the
success flag and the `sent` status. -/
theorem sendIssueEmailBody_ok (sg : EmailService.SgOracle) (fromEmail : String)
    (d : Option EmailData) (date : String) (r : EmailService.EmailResult)
    (h : EmailService.sendIssueEmailBody sg fromEmail d date = .ok r) :
    r.success = true ∧ r.status = "sent" := by
  simp only [EmailService.sendIssueEmailBody] at h
  split at h
  · simp at h
  · split at h
    · simp at h
    · split at h
      · simp at h
      · simp at h
      · simp at h
      · split at h
        · simp at h
        · cases Except.ok.inj h
          exact ⟨rfl, rfl⟩

/-- `bulkSmsPhase1` never throws on a list of non-null requests. -/
theorem bulkSmsPhase1_ok (date : String) (xs : List SmsData) :
    ∀ acc : List SmsService.BulkSmsEntry × List SmsService.SmsGroup,
      ∃ out, SmsService.bulkSmsPhase1 date (xs.map some) acc = .ok out := by
  induction xs with
  | nil => intro acc; exact ⟨acc, rfl⟩
  | cons d rest ih =>
    rintro ⟨fails, groups⟩
    simp only [List.map_cons, SmsService.bulkSmsPhase1]
    cases htpl : SmsTemplates.getTemplate d.subject (some (normalizeLanguage d.language)) with
    | nullResult => exact ih _
    | found t => exact ih _
    | hostValue k =>
      exfalso
      rcases getTemplate_sms_canonical d.subject (normalizeLanguage d.language)
        (normalizeLanguage_mem d.language) with ⟨t, hc⟩ | hc <;>
        rw [htpl] at hc <;> simp at hc
    | thrown =>
      exfalso
      rcases getTemplate_sms_canonical d.subject (normalizeLanguage d.language)
        (normalizeLanguage_mem d.language) with ⟨t, hc⟩ | hc <;>
        rw [htpl] at hc <;> simp at hc

/-- Claim C2 (amended): `sendIssueSms` and `sendIssueEmail` always return a
result value — with the success flag set exactly when the status is `sent`,
and a failed status otherwise — for every input including a null request;
`sendBulkSms` returns a result array for every list of non-null request
objects (a null list element, by contrast, makes it throw: see the
counterexample). -/
theorem dispatch_always_returns_result :
    (∀ (axios : SmsService.AxiosOracle) (d : Option SmsData) (date : String),
        ((SmsService.sendIssueSms axios d date).success = true
          ∧ (SmsService.sendIssueSms axios d date).status = "sent")
        ∨ ((SmsService.sendIssueSms axios d date).success = false
          ∧ (SmsService.sendIssueSms axios d date).status = "failed"))
    ∧ (∀ (sg : EmailService.SgOracle) (fromEmail : String) (d : Option EmailData)
          (date : String),
        ((EmailService.sendIssueEmail sg fromEmail d date).success = true
          ∧ (EmailService.sendIssueEmail sg fromEmail d date).status = "sent")
        ∨ ((EmailService.sendIssueEmail sg fromEmail d date).success = false
          ∧ (EmailService.sendIssueEmail sg fromEmail d date).status = "failed"))
    ∧ (∀ (axios : SmsService.AxiosOracle) (date : String) (xs : List SmsData),
        ∃ rs, SmsService.sendBulkSms axios date (xs.map some) = .ok rs) := by
  refine ⟨?_, ?_, ?_⟩
  · intro axios d date
    unfold SmsService.sendIssueSms
    cases hb : SmsService.sendIssueSmsBody axios d date with
    | ok r => exact Or.inl (sendIssueSmsBody_ok axios d date r hb)
    | error e => exact Or.inr ⟨rfl, rfl⟩
  · intro sg fromEmail d date
    unfold EmailService.sendIssueEmail
    cases hb : EmailService.sendIssueEmailBody sg fromEmail d date with
    | ok r => exact Or.inl (sendIssueEmailBody_ok sg fromEmail d date r hb)
    | error e => exact Or.inr ⟨rfl, rfl⟩
  · intro axios date xs
    obtain ⟨out, hout⟩ := bulkSmsPhase1_ok date xs ([], [])
    obtain ⟨fails, groups⟩ := out
    refine ⟨fails ++ SmsService.bulkSmsPhase2 axios groups, ?_⟩
    simp only [SmsService.sendBulkSms, hout]

/-- Claim C2 (counterexample to the claim as stated): a null element of the
bulk SMS list is destructured outside any try/catch, so the TypeError
escapes `sendBulkSms` to its caller instead of being converted into a
failed result. -/
theorem bulkSms_null_element_throws :
    SmsService.sendBulkSms axiosAllOk ("") [none]
      = Except.error
          "Cannot destructure property \x27phoneNumber\x27 of \x27smsData\x27 as it is null." :=
  rfl

/-- Moving an element appended in the middle to the head of the tail is a
permutation. -/
theorem perm_snoc_middle {α : Type} (A F R : List α) (x : α) :
    List.Perm (((A ++ [x]) ++ F) ++ R) ((A ++ F) ++ (x :: R)) := by
  have h1 : ((A ++ [x]) ++ F) ++ R = (A ++ (x :: F)) ++ R := by simp
  rw [h1]
  refine ((List.perm_middle).append_right R).trans ?_
  have h3 : List.Perm ((A ++ F) ++ (x :: R)) (x :: ((A ++ F) ++ R)) := List.perm_middle
  simpa using h3.symm

/-- Inserting a recipient into the group map appends exactly one projected
outcome, up to permutation. -/
theorem insertGroup_flatRec (groups : List SmsService.SmsGroup)
    (key m ty : String) (r : SmsService.SmsRecipient) :
    List.Perm (flatRec (SmsService.insertGroup groups key m ty r))
      (flatRec groups ++ [recipProjTrue r]) := by
  induction groups with
  | nil => simp [SmsService.insertGroup, flatRec]
  | cons g gs ih =>
    by_cases hk : g.key = key
    · simp only [SmsService.insertGroup, if_pos hk, flatRec, List.flatMap_cons,
        List.map_append, List.map_cons, List.map_nil]
      have h := perm_snoc_middle (g.recipients.map recipProjTrue)
        (gs.flatMap (fun g => g.recipients.map recipProjTrue)) [] (recipProjTrue r)
      simpa using h
    · simp only [SmsService.insertGroup, if_neg hk, flatRec, List.flatMap_cons]
      have h := ih
      simp only [flatRec] at h
      refine (h.append_left (g.recipients.map recipProjTrue)).trans ?_
      simp [List.append_assoc]

/-- Inserting a recipient grows the total recipient count by one. -/
theorem insertGroup_sizes (groups : List SmsService.SmsGroup)
    (key m ty : String) (r : SmsService.SmsRecipient) :
    ((SmsService.insertGroup groups key m ty r).map
        (fun g => g.recipients.length)).sum
      = (groups.map (fun g => g.recipients.length)).sum + 1 := by
  induction groups with
  | nil => simp [SmsService.insertGroup]
  | cons g gs ih =>
    by_cases hk : g.key = key
    · simp only [SmsService.insertGroup, if_pos hk, List.map_cons, List.sum_cons,
        List.length_append, List.length_singleton]
      omega
    · simp only [SmsService.insertGroup, if_neg hk, List.map_cons, List.sum_cons, ih]
      omega

/-- The second bulk loop emits exactly one result per group recipient. -/
theorem bulkSmsPhase2_length (axios : SmsService.AxiosOracle)
    (groups : List SmsService.SmsGroup) :
    (SmsService.bulkSmsPhase2 axios groups).length
      = (groups.map (fun g => g.recipients.length)).sum := by
  induction groups with
  | nil => rfl
  | cons g gs ih =>
    simp only [SmsService.bulkSmsPhase2, List.flatMap_cons, List.length_append,
      List.map_cons, List.sum_cons]
    simp only [SmsService.bulkSmsPhase2] at ih
    rw [ih]
    cases SmsService.sendSms axios
        (String.intercalate (", ") (g.recipients.map (fun r => r.phoneNumber.getD (""))))
        g.message g.ty with
    | ok u => simp
    | error e => simp

/-- When every transport call succeeds, the second bulk loop projects to
the successful outcome of every group recipient. -/
theorem bulkSmsPhase2_proj_allok (axios : SmsService.AxiosOracle)
    (hok : ∀ p m ty, axios p m ty = SmsService.AxiosOutcome.success)
    (groups : List SmsService.SmsGroup) :
    (SmsService.bulkSmsPhase2 axios groups).map bulkProj = flatRec groups := by
  induction groups with
  | nil => rfl
  | cons g gs ih =>
    have hs : SmsService.sendSms axios
        (String.intercalate (", ") (g.recipients.map (fun r => r.phoneNumber.getD (""))))
        g.message g.ty = .ok () := by
      simp [SmsService.sendSms, hok]
    simp only [SmsService.bulkSmsPhase2, List.flatMap_cons, List.map_append, hs]
    simp only [SmsService.bulkSmsPhase2] at ih
    rw [ih]
    simp only [flatRec, List.flatMap_cons, List.map_map]
    rfl

/-- Length invariant of the first bulk loop: each processed request adds
exactly one pending result (an immediate failure entry or a group
recipient). -/
theorem bulkSmsPhase1_length (date : String) (xs : List SmsData) :
    ∀ (fails : List SmsService.BulkSmsEntry) (groups : List SmsService.SmsGroup)
      (fails' : List SmsService.BulkSmsEntry) (groups' : List SmsService.SmsGroup),
      SmsService.bulkSmsPhase1 date (xs.map some) (fails, groups) = .ok (fails', groups') →
      fails'.length + ((groups'.map (fun g => g.recipients.length)).sum)
        = fails.length + ((groups.map (fun g => g.recipients.length)).sum) + xs.length := by
  induction xs with
  | nil =>
    intro fails groups fails' groups' h
    simp only [List.map_nil, SmsService.bulkSmsPhase1] at h
    injection (Except.ok.inj h) with h1 h2
    subst h1; subst h2
    simp
  | cons d rest ih =>
    intro fails groups fails' groups' h
    simp only [List.map_cons, SmsService.bulkSmsPhase1] at h
    cases htpl : SmsTemplates.getTemplate d.subject (some (normalizeLanguage d.language)) with
    | nullResult =>
      rw [htpl] at h
      have := ih _ _ _ _ h
      simp only [List.length_append, List.length_cons, List.length_nil] at this ⊢
      omega
    | found template =>
      rw [htpl] at h
      have := ih _ _ _ _ h
      rw [insertGroup_sizes] at this
      simp only [List.length_cons] at this ⊢
      omega
    | hostValue k =>
      exfalso
      rcases getTemplate_sms_canonical d.subject (normalizeLanguage d.language)
        (normalizeLanguage_mem d.language) with ⟨t, hc⟩ | hc <;>
        rw [htpl] at hc <;> simp at hc
    | thrown =>
      exfalso
      rcases getTemplate_sms_canonical d.subject (normalizeLanguage d.language)
        (normalizeLanguage_mem d.language) with ⟨t, hc⟩ | hc <;>
        rw [htpl] at hc <;> simp at hc

/-- Permutation invariant of the first bulk loop: the multiset of projected
pending outcomes grows by exactly the expected outcome of each processed
request. -/
theorem bulkSmsPhase1_invariant (date : String) (xs : List SmsData) :
    ∀ (fails : List SmsService.BulkSmsEntry) (groups : List SmsService.SmsGroup)
      (fails' : List SmsService.BulkSmsEntry) (groups' : List SmsService.SmsGroup),
      SmsService.bulkSmsPhase1 date (xs.map some) (fails, groups) = .ok (fails', groups') →
      List.Perm (fails'.map bulkProj ++ flatRec groups')
        ((fails.map bulkProj ++ flatRec groups) ++ xs.map expectedOutcome) := by
  induction xs with
  | nil =>
    intro fails groups fails' groups' h
    simp only [List.map_nil, SmsService.bulkSmsPhase1] at h
    injection (Except.ok.inj h) with h1 h2
    subst h1; subst h2
    simp
  | cons d rest ih =>
    intro fails groups fails' groups' h
    simp only [List.map_cons, SmsService.bulkSmsPhase1] at h
    cases htpl : SmsTemplates.getTemplate d.subject (some (normalizeLanguage d.language)) with
    | hostValue k =>
      exfalso
      rcases getTemplate_sms_canonical d.subject (normalizeLanguage d.language)
        (normalizeLanguage_mem d.language) with ⟨t, hc⟩ | hc <;>
        rw [htpl] at hc <;> simp at hc
    | thrown =>
      exfalso
      rcases getTemplate_sms_canonical d.subject (normalizeLanguage d.language)
        (normalizeLanguage_mem d.language) with ⟨t, hc⟩ | hc <;>
        rw [htpl] at hc <;> simp at hc
    | nullResult =>
      rw [htpl] at h
      have hperm := ih _ _ _ _ h
      refine hperm.trans ?_
      have hx : bulkProj
          { phoneNumber := d.phoneNumber, ticketId := d.ticketId,
            success := false, status := none,
            message := "Template not found for status: " ++ jsStr d.subject ++
              " and language: " ++ normalizeLanguage d.language }
          = expectedOutcome d := by
        simp [bulkProj, expectedOutcome, htpl, TemplateResult.isFound]
      rw [List.map_append]
      simp only [List.map_cons, List.map_nil, hx]
      exact perm_snoc_middle (fails.map bulkProj) (flatRec groups)
        (rest.map expectedOutcome) (expectedOutcome d)
    | found template =>
      rw [htpl] at h
      have hperm := ih _ _ _ _ h
      refine hperm.trans ?_
      have hx : recipProjTrue ⟨d.phoneNumber, d.ticketId, d.name⟩ = expectedOutcome d := by
        simp [recipProjTrue, expectedOutcome, htpl, TemplateResult.isFound]
      have hins := insertGroup_flatRec groups
        (SmsService.buildSmsMessage template
            ⟨d.name, d.ticketId, d.issueTitle, d.assignedTo, d.escalatedTo, d.responseMessage⟩
            date ++ "_" ++
          SmsService.determineMessageType
            (SmsService.buildSmsMessage template
              ⟨d.name, d.ticketId, d.issueTitle, d.assignedTo, d.escalatedTo, d.responseMessage⟩
              date)
            (normalizeLanguage d.language))
        (SmsService.buildSmsMessage template
          ⟨d.name, d.ticketId, d.issueTitle, d.assignedTo, d.escalatedTo, d.responseMessage⟩
          date)
        (SmsService.determineMessageType
          (SmsService.buildSmsMessage template
            ⟨d.name, d.ticketId, d.issueTitle, d.assignedTo, d.escalatedTo, d.responseMessage⟩
            date)
          (normalizeLanguage d.language))
        ⟨d.phoneNumber, d.ticketId, d.name⟩

      rw [hx] at hins
      refine ((hins.append_left (fails.map bulkProj)).append_right
        (rest.map expectedOutcome)).trans ?_
      have heq : (fails.map bulkProj ++ (flatRec groups ++ [expectedOutcome d]))
          ++ rest.map expectedOutcome
          = (((fails.map bulkProj ++ flatRec groups) ++ [expectedOutcome d])
            ++ rest.map expectedOutcome) := by
        simp [List.append_assoc]
      rw [heq, List.append_assoc (fails.map bulkProj ++ flatRec groups)]
      simp only [List.map_cons]
      rfl

/-- Claim C1 (amended): on a list of non-null requests, bulk SMS dispatch
returns exactly one result per input request, and — when every transport
call succeeds — the multiset of (phoneNumber, ticketId, success) outcomes
equals the multiset of per-request expected outcomes, each request
succeeding exactly when its own template resolves.  (Order is NOT
preserved: see the counterexample.) -/
theorem bulkSms_one_result_per_request (axios : SmsService.AxiosOracle)
    (date : String) (xs : List SmsData) :
    ∃ rs, SmsService.sendBulkSms axios date (xs.map some) = .ok rs
      ∧ rs.length = xs.length
      ∧ ((∀ p m ty, axios p m ty = SmsService.AxiosOutcome.success) →
          List.Perm (rs.map bulkProj) (xs.map expectedOutcome)) := by
  obtain ⟨⟨fails, groups⟩, hout⟩ := bulkSmsPhase1_ok date xs ([], [])
  refine ⟨fails ++ SmsService.bulkSmsPhase2 axios groups, ?_, ?_, ?_⟩
  · simp only [SmsService.sendBulkSms, hout]
  · have hlen := bulkSmsPhase1_length date xs [] [] fails groups hout
    simp only [List.length_nil, List.map_nil, List.sum_nil] at hlen
    rw [List.length_append, bulkSmsPhase2_length]
    omega
  · intro hok
    have hperm := bulkSmsPhase1_invariant date xs [] [] fails groups hout
    simp only [List.map_nil, flatRec, List.flatMap_nil, List.nil_append] at hperm
    rw [List.map_append, bulkSmsPhase2_proj_allok axios hok groups]
    exact hperm

/-- Witness for C1 at a concrete input: a two-request batch (one
resolvable, one with an unknown subject) yields two results whose projected
outcomes are a permutation of the expected per-request outcomes. -/
theorem bulkSms_one_result_per_request_witness :
    ∃ rs, SmsService.sendBulkSms axiosAllOk ("")
        [some receivedRequest, some bogusSubjectRequest] = .ok rs
      ∧ rs.length = 2
      ∧ List.Perm (rs.map bulkProj)
          ([receivedRequest, bogusSubjectRequest].map expectedOutcome) := by
  obtain ⟨rs, h1, h2, h3⟩ := bulkSms_one_result_per_request axiosAllOk ("")
    [receivedRequest, bogusSubjectRequest]
  exact ⟨rs, h1, h2, h3 (fun _ _ _ => rfl)⟩

/-- Claim C1 (counterexample to the claim as stated): with inputs ordered
`[T1 (resolvable), T2 (unknown subject)]`, the results come back ordered
`[T2 (failed), T1 (succeeded)]` — template-resolution failures are emitted
before the grouped transport results, so the result array is NOT in input
order. -/
theorem bulkSms_order_counterexample :
    receivedRequest.ticketId = some ("T1")
    ∧ bogusSubjectRequest.ticketId = some ("T2")
    ∧ Except.map (fun rs => rs.map (fun en => (en.ticketId, en.success)))
        (SmsService.sendBulkSms axiosAllOk ("") [some receivedRequest, some bogusSubjectRequest])
      = Except.ok [(some ("T2"), false), (some ("T1"), true)] := by
  refine ⟨rfl, rfl, rfl⟩

end Notifier
